import Mathlib

/-!
# Zcents chain parameters: founders-reward resolver and network selection

A shallow embedding of `src/chainparams.cpp`: the founders-reward address
lookup (`GetFoundersRewardAddressAtHeight`, `GetFoundersRewardAddressAtIndex`),
the process-wide network selection (`Params`, `SelectParams`) and the regtest
mutators (`UpdateNetworkUpgradeParameters` and its siblings).

C++ `int` values are `Int`; `size_t` values are `Nat` reduced modulo `2 ^ 64`
at every operation that can wrap. Assertion failures, thrown exceptions and
undefined behaviour (division by zero, out-of-bounds `operator[]`) are explicit
`Failure` results.
-/

namespace Zcents

/-! ## Machine integers -/

/-- Largest value of a C++ `int` (32 bit). -/
def INT_MAX : Int := 2 ^ 31 - 1

/-- Number of values of `size_t` (64 bit): unsigned arithmetic is modulo this. -/
def SIZE_MOD : Nat := 2 ^ 64

/-- Upper bound on `std::vector<T>::size()`: `max_size()` never exceeds
`PTRDIFF_MAX`. -/
def VECTOR_MAX_SIZE : Nat := 2 ^ 63 - 1

/-- Implicit conversion `int → size_t`: the value modulo `2 ^ 64`. -/
def toSizeT (x : Int) : Nat := (x % (SIZE_MOD : Int)).toNat

/-! ## Failures -/

/-- The ways a call can end without a value. -/
inductive Failure where
  /-- The assertion `nHeight > 0 && nHeight <= preBlossomMaxHeight` failed. -/
  | rangeViolation
  /-- The assertion `i >= 0 && i < vFoundersRewardAddress.size()` failed. -/
  | indexAssertion
  /-- An upgrade query was made at a negative height. -/
  | invalidArgument
  /-- The assertion `pCurrentParams` failed. -/
  | noCurrentParams
  /-- A `std::runtime_error`: unknown chain name. -/
  | unknownChain
  /-- The failure of a collaborator that lives outside `chainparams.cpp`. -/
  | collaborator
  /-- Undefined behaviour: unsigned division by zero. -/
  | divisionByZero
  /-- Undefined behaviour: `operator[]` past the end of a vector. -/
  | outOfBounds
  /-- A funding-stream recipient index outside the recipient sequence: the fatal
  internal-consistency failure of §4.2. -/
  | inconsistentSchedule
  deriving DecidableEq, Repr

/-! ## Consensus data -/

namespace Consensus

/-- Index into `Consensus::Params::vUpgrades`, in definition order. -/
inductive UpgradeIndex where
  | BASE_SPROUT
  | UPGRADE_TESTDUMMY
  | UPGRADE_OVERWINTER
  | UPGRADE_SAPLING
  | UPGRADE_BLOSSOM
  | UPGRADE_HEARTWOOD
  | UPGRADE_CANOPY
  | UPGRADE_NU5
  | UPGRADE_NU6
  | UPGRADE_NU6_1
  | UPGRADE_ZFUTURE
  deriving DecidableEq, Repr

/-- Index into `Consensus::Params::vFundingStreams`. -/
inductive FundingStreamIndex where
  | FS_ZIP214_BP
  | FS_ZIP214_ZF
  | FS_ZIP214_MG
  | FS_FPF_ZCG
  | FS_DEFERRED
  | FS_FPF_ZCG_H3
  | FS_CCF_H3
  deriving DecidableEq, Repr

/-- Index into `Consensus::Params::vOnetimeLockboxDisbursements`. -/
inductive OnetimeLockboxDisbursementIndex where
  | LD_ZIP271_NU6_1_CHUNK_1
  | LD_ZIP271_NU6_1_CHUNK_2
  | LD_ZIP271_NU6_1_CHUNK_3
  | LD_ZIP271_NU6_1_CHUNK_4
  | LD_ZIP271_NU6_1_CHUNK_5
  | LD_ZIP271_NU6_1_CHUNK_6
  | LD_ZIP271_NU6_1_CHUNK_7
  | LD_ZIP271_NU6_1_CHUNK_8
  | LD_ZIP271_NU6_1_CHUNK_9
  | LD_ZIP271_NU6_1_CHUNK_10
  deriving DecidableEq, Repr

/-- Modelled from the spec: `Consensus::NetworkUpgrade::ALWAYS_ACTIVE`, declared in
`consensus/params.h`, which is not in `chainparams.cpp`; "always-active" is treated as
height 0. -/
def NetworkUpgrade.ALWAYS_ACTIVE : Int := 0

/-- Modelled from the spec: `Consensus::NetworkUpgrade::NO_ACTIVATION_HEIGHT`, declared in
`consensus/params.h`, which is not in `chainparams.cpp`; the "never-activates" marker, a
value no block height takes. -/
def NetworkUpgrade.NO_ACTIVATION_HEIGHT : Int := -1

/-- One entry of `vUpgrades`. -/
structure NetworkUpgrade where
  nProtocolVersion : Int
  nActivationHeight : Int
  deriving DecidableEq, Repr

/-- Modelled from the spec: `Consensus::FundingStream` (§3 FundingStream), declared in
`consensus/params.h`, which is not in `chainparams.cpp`: start height (inclusive), end
height (exclusive), one recipient per funding period, and the lockbox flag. -/
structure FundingStream where
  startHeight : Int
  endHeight : Int
  recipients : List String
  isLockbox : Bool
  deriving DecidableEq, Repr

/-- Modelled from the spec: `Consensus::OnetimeLockboxDisbursement` (§3
OnetimeLockboxDisbursement), declared in `consensus/params.h`, which is not in
`chainparams.cpp`. -/
structure OnetimeLockboxDisbursement where
  upgrade : UpgradeIndex
  amount : Int
  recipient : String
  deriving DecidableEq, Repr

/-- The fields of `Consensus::Params` that `chainparams.cpp` assigns. -/
structure Params where
  fCoinbaseMustBeShielded : Bool
  nSubsidySlowStartInterval : Int
  nPreBlossomSubsidyHalvingInterval : Int
  nPostBlossomSubsidyHalvingInterval : Int
  nMajorityEnforceBlockUpgrade : Int
  nMajorityRejectBlockOutdated : Int
  nMajorityWindow : Int
  powLimit : Nat
  nPowAveragingWindow : Int
  nPowMaxAdjustDown : Int
  nPowMaxAdjustUp : Int
  fPowNoRetargeting : Bool
  vUpgrades : UpgradeIndex → NetworkUpgrade
  nFundingPeriodLength : Int
  vFundingStreams : FundingStreamIndex → Option FundingStream
  vOnetimeLockboxDisbursements :
    OnetimeLockboxDisbursementIndex → Option OnetimeLockboxDisbursement

end Consensus

/-- The fields of `CChainParams` that the modelled functions read or write. -/
structure CChainParams where
  strNetworkID : String
  consensus : Consensus.Params
  fZIP209Enabled : Bool
  vFoundersRewardAddress : List String

/-- Declarations of `consensus/params.h` that `chainparams.cpp` uses and that are
defined outside it. They are parameters of the model: every theorem holds for each
value they can take. The ratio is a positive integer (the factor between the pre- and
post-upgrade block spacing). -/
structure ConsensusDecls where
  /-- The method `Consensus::Params::GetLastFoundersRewardBlockHeight(int nHeight)`. -/
  GetLastFoundersRewardBlockHeight : Consensus.Params → Int → Int
  /-- The constant `Consensus::BLOSSOM_POW_TARGET_SPACING_RATIO`. -/
  BLOSSOM_POW_TARGET_SPACING_RATIO : Int
  ratio_pos : 1 ≤ BLOSSOM_POW_TARGET_SPACING_RATIO

/-- Modelled from the spec: `Consensus::Params::NetworkUpgradeActive`, defined in
`consensus/upgrades.cpp`, not in `chainparams.cpp`. §4.1: an upgrade is active at a
height when its activation height is at most that height, "always-active" counting as 0
and "never-activates" as +infinity; a negative height fails with an invalid-argument
condition. -/
def NetworkUpgradeActive (consensus : Consensus.Params) (nHeight : Int)
    (idx : Consensus.UpgradeIndex) :
    Except Failure Bool :=
  if nHeight < 0 then .error .invalidArgument
  else if (consensus.vUpgrades idx).nActivationHeight
      = Consensus.NetworkUpgrade.NO_ACTIVATION_HEIGHT then .ok false
  else .ok (decide ((consensus.vUpgrades idx).nActivationHeight ≤ nHeight))

/-! ## Founders-reward resolver (`chainparams.cpp` lines 817-853) -/

/-- The zip208 substitution of line 828:
`blossomActivationHeight + ((nHeight - blossomActivationHeight) / RATIO)`,
with the truncating division of C++ `int`. The branch is taken with
`0 ≤ nHeight` and `blossomActivationHeight ≤ nHeight`; for an activation height that is
a block height (at least 0) every intermediate value then lies between 0 and `nHeight`,
so the `int` arithmetic is exact. For an activation height below 0 other than the
never-activates marker the C++ subtraction can overflow `int`, which this definition
does not model: every theorem whose statement depends on the substituted value assumes
an activation height that is at least 0 or the never-activates marker. -/
def blossomAdjustedHeight (blossomActivationHeight ratio nHeight : Int) : Int :=
  blossomActivationHeight + (nHeight - blossomActivationHeight).tdiv ratio

/-- Lines 825-829: the height the address index is computed from. -/
def foundersAdjustedHeight (d : ConsensusDecls) (consensus : Consensus.Params) (nHeight : Int) :
    Except Failure Int :=
  match NetworkUpgradeActive consensus nHeight .UPGRADE_BLOSSOM with
  | .error e => .error e
  | .ok blossomActive =>
    if blossomActive then
      let blossomActivationHeight := (consensus.vUpgrades .UPGRADE_BLOSSOM).nActivationHeight
      .ok (blossomAdjustedHeight blossomActivationHeight
            d.BLOSSOM_POW_TARGET_SPACING_RATIO nHeight)
    else .ok nHeight

/-- Line 831: `(preBlossomMaxHeight + size) / size` in `size_t`; the `int` operand is
converted to `size_t` and the sum wraps modulo `2 ^ 64`. Only called with `size ≠ 0`. -/
def addressChangeInterval (preBlossomMaxHeight : Int) (size : Nat) : Nat :=
  ((toSizeT preBlossomMaxHeight + size) % SIZE_MOD) / size

/-- Line 832: `nHeight / addressChangeInterval` in `size_t`. Only called with a
non-zero interval. -/
def addressIndex (nHeight : Int) (interval : Nat) : Nat :=
  toSizeT nHeight / interval

/-- Lines 830-833: the range assertion, the interval, the index and the lookup,
applied to the (already substituted) height. -/
def foundersAddressLookup (vFoundersRewardAddress : List String)
    (preBlossomMaxHeight nHeight : Int) : Except Failure String :=
  if nHeight > 0 ∧ nHeight ≤ preBlossomMaxHeight then
    if vFoundersRewardAddress.length = 0 then .error .divisionByZero
    else
      let interval := addressChangeInterval preBlossomMaxHeight vFoundersRewardAddress.length
      if interval = 0 then .error .divisionByZero
      else
        match vFoundersRewardAddress[addressIndex nHeight interval]? with
        | some a => .ok a
        | none => .error .outOfBounds
  else .error .rangeViolation

/-- The method `CChainParams::GetFoundersRewardAddressAtHeight(int nHeight)`
(lines 819-834). -/
def GetFoundersRewardAddressAtHeight (d : ConsensusDecls) (p : CChainParams) (nHeight : Int) :
    Except Failure String :=
  let preBlossomMaxHeight := d.GetLastFoundersRewardBlockHeight p.consensus 0
  match foundersAdjustedHeight d p.consensus nHeight with
  | .error e => .error e
  | .ok nHeight => foundersAddressLookup p.vFoundersRewardAddress preBlossomMaxHeight nHeight

/-- The method `CChainParams::GetFoundersRewardAddressAtIndex(int i)`: the comparison
`i < size()` and the subscript both convert `i` to `size_t`. -/
def GetFoundersRewardAddressAtIndex (p : CChainParams) (i : Int) : Except Failure String :=
  if i ≥ 0 ∧ toSizeT i < p.vFoundersRewardAddress.length then
    match p.vFoundersRewardAddress[toSizeT i]? with
    | some a => .ok a
    | none => .error .outOfBounds
  else .error .indexAssertion

/-! ## Network selection (`chainparams.cpp` lines 779-814) -/

/-- Modelled from the spec: `CBaseChainParams::MAIN`, declared in `chainparamsbase.h`, not
in `chainparams.cpp`; the name of the main network, the string `CMainParams` stores as
its network id. -/
def CBaseChainParams.MAIN : String := "main"

/-- Modelled from the spec: `CBaseChainParams::TESTNET`, declared in `chainparamsbase.h`,
not in `chainparams.cpp`; the string `CTestNetParams` stores as its network id. -/
def CBaseChainParams.TESTNET : String := "test"

/-- Modelled from the spec: `CBaseChainParams::REGTEST`, declared in `chainparamsbase.h`,
not in `chainparams.cpp`; the string `CRegTestParams` stores as its network id. -/
def CBaseChainParams.REGTEST : String := "regtest"

/-- The object a `const CChainParams&` or `const CChainParams*` designates: one of the
three static instances. -/
inductive ChainRef where
  | mainParams
  | testNetParams
  | regTestParams
  deriving DecidableEq, Repr

/-- The file-level state of `chainparams.cpp`: the three static instances, the
current-network pointer (`none` is `nullptr`) and the argument map read by
`SelectParams` (`mapArgs.count(key)`). -/
structure World where
  mainParams : CChainParams
  testNetParams : CChainParams
  regTestParams : CChainParams
  pCurrentParams : Option ChainRef
  mapArgs : String → Nat

/-- Line 781: at start-up, after the three instances are constructed, the current
pointer is `nullptr`. -/
def World.atStartup (mainParams testNetParams regTestParams : CChainParams)
    (mapArgs : String → Nat) : World where
  mainParams := mainParams
  testNetParams := testNetParams
  regTestParams := regTestParams
  pCurrentParams := none
  mapArgs := mapArgs

/-- Dereference: the instance a reference designates in a given state. -/
def World.deref (w : World) : ChainRef → CChainParams
  | .mainParams => w.mainParams
  | .testNetParams => w.testNetParams
  | .regTestParams => w.regTestParams

/-- The function `const CChainParams& Params()`: asserts the current pointer and dereferences it. -/
def Params (w : World) : Except Failure ChainRef :=
  match w.pCurrentParams with
  | none => .error .noCurrentParams
  | some r => .ok r

/-- The overload `const CChainParams& Params(const std::string& chain)`. -/
def ParamsOfChain (chain : String) : Except Failure ChainRef :=
  if chain = CBaseChainParams.MAIN then .ok .mainParams
  else if chain = CBaseChainParams.TESTNET then .ok .testNetParams
  else if chain = CBaseChainParams.REGTEST then .ok .regTestParams
  else .error .unknownChain

/-- Modelled from the spec: `CRegTestParams::SetRegTestCoinbaseMustBeShielded`, a member
whose body is not in `chainparams.cpp`; §4.5 lists regtest as the one instance with
test-only mutation. It sets the flag it is named after. -/
def SetRegTestCoinbaseMustBeShielded (p : CChainParams) : CChainParams :=
  { p with consensus := { p.consensus with fCoinbaseMustBeShielded := true } }

/-- Modelled from the spec: `CRegTestParams::SetRegTestZIP209Enabled`, a member whose body
is not in `chainparams.cpp`; §4.5 lists regtest as the one instance with test-only
mutation. It sets the flag it is named after. -/
def SetRegTestZIP209Enabled (p : CChainParams) : CChainParams :=
  { p with fZIP209Enabled := true }

/-- The function `void SelectParams(const std::string& network)`. The result pairs the outcome
with the state the call leaves behind, so that a throwing call still has a final
state. `SelectBaseParams` is defined in `chainparamsbase.cpp` and acts on
its own global: it is a parameter, and may throw. -/
def SelectParams (SelectBaseParams : String → Except Failure Unit) (network : String)
    (w : World) : Except Failure Unit × World :=
  match SelectBaseParams network with
  | .error e => (.error e, w)
  | .ok _ =>
    match ParamsOfChain network with
    | .error e => (.error e, w)
    | .ok r =>
      let w1 := { w with pCurrentParams := some r }
      let w2 :=
        if network = CBaseChainParams.REGTEST ∧ w1.mapArgs "-regtestshieldcoinbase" ≠ 0 then
          { w1 with regTestParams := SetRegTestCoinbaseMustBeShielded w1.regTestParams }
        else w1
      let w3 :=
        if network = CBaseChainParams.REGTEST ∧ w2.mapArgs "-developersetpoolsizezero" ≠ 0 then
          { w2 with regTestParams := SetRegTestZIP209Enabled w2.regTestParams }
        else w2
      (.ok (), w3)

/-- A sequence of `SelectParams` calls, each exception caught by the caller: the
outcomes in order and the state after the last call. -/
def selectSequence (SelectBaseParams : String → Except Failure Unit) :
    List String → World → List (Except Failure Unit) × World
  | [], w => ([], w)
  | network :: rest, w =>
    let r := SelectParams SelectBaseParams network w
    let t := selectSequence SelectBaseParams rest r.2
    (r.1 :: t.1, t.2)

/-! ## Regtest mutators (`chainparams.cpp` lines 855-879) -/

/-- Modelled from the spec: the member `CRegTestParams::UpdateNetworkUpgradeParameters`,
whose body is not in `chainparams.cpp`. §4.5 `UpdateUpgradeActivation`: it sets the
activation height of the given upgrade. -/
def CRegTestParams.UpdateNetworkUpgradeParameters (idx : Consensus.UpgradeIndex)
    (nActivationHeight : Int) (p : CChainParams) : CChainParams :=
  { p with consensus := { p.consensus with
      vUpgrades := Function.update p.consensus.vUpgrades idx
        { p.consensus.vUpgrades idx with nActivationHeight := nActivationHeight } } }

/-- Modelled from the spec: the member `CRegTestParams::UpdateFundingStreamParameters`,
whose body is not in `chainparams.cpp`. §4.5 `UpdateFundingStream`: it stores the stream
at its index. -/
def CRegTestParams.UpdateFundingStreamParameters (idx : Consensus.FundingStreamIndex)
    (fs : Consensus.FundingStream) (p : CChainParams) : CChainParams :=
  { p with consensus := { p.consensus with
      vFundingStreams := Function.update p.consensus.vFundingStreams idx (some fs) } }

/-- Modelled from the spec: the member
`CRegTestParams::UpdateOnetimeLockboxDisbursementParameters`, whose body is not in
`chainparams.cpp`. §4.5 `UpdateOnetimeDisbursement`: it stores the disbursement at its
index. -/
def CRegTestParams.UpdateOnetimeLockboxDisbursementParameters
    (idx : Consensus.OnetimeLockboxDisbursementIndex)
    (ld : Consensus.OnetimeLockboxDisbursement) (p : CChainParams) : CChainParams :=
  { p with consensus := { p.consensus with
      vOnetimeLockboxDisbursements :=
        Function.update p.consensus.vOnetimeLockboxDisbursements idx (some ld) } }

/-- Modelled from the spec: the member `CRegTestParams::UpdateRegtestPow`, whose body is not
in `chainparams.cpp`. §4.5 `UpdateProofOfWorkLimits`: adjust-down and adjust-up
percentages, limit value, retargeting on/off. -/
def CRegTestParams.UpdateRegtestPow (nPowMaxAdjustDown nPowMaxAdjustUp : Int)
    (powLimit : Nat) (noRetargeting : Bool) (p : CChainParams) : CChainParams :=
  { p with consensus := { p.consensus with
      nPowMaxAdjustDown := nPowMaxAdjustDown,
      nPowMaxAdjustUp := nPowMaxAdjustUp,
      powLimit := powLimit,
      fPowNoRetargeting := noRetargeting } }

/-- The function `void UpdateNetworkUpgradeParameters(Consensus::UpgradeIndex, int)`. -/
def UpdateNetworkUpgradeParameters (idx : Consensus.UpgradeIndex) (nActivationHeight : Int)
    (w : World) : World :=
  { w with regTestParams :=
      CRegTestParams.UpdateNetworkUpgradeParameters idx nActivationHeight w.regTestParams }

/-- The function `void UpdateFundingStreamParameters(Consensus::FundingStreamIndex,
Consensus::FundingStream)`. -/
def UpdateFundingStreamParameters (idx : Consensus.FundingStreamIndex)
    (fs : Consensus.FundingStream) (w : World) : World :=
  { w with regTestParams :=
      CRegTestParams.UpdateFundingStreamParameters idx fs w.regTestParams }

/-- The function `void UpdateOnetimeLockboxDisbursementParameters(
Consensus::OnetimeLockboxDisbursementIndex, Consensus::OnetimeLockboxDisbursement)`. -/
def UpdateOnetimeLockboxDisbursementParameters
    (idx : Consensus.OnetimeLockboxDisbursementIndex)
    (ld : Consensus.OnetimeLockboxDisbursement) (w : World) : World :=
  { w with regTestParams :=
      CRegTestParams.UpdateOnetimeLockboxDisbursementParameters idx ld w.regTestParams }

/-- The function `void UpdateRegtestPow(int64_t, int64_t, uint256, bool)`. -/
def UpdateRegtestPow (nPowMaxAdjustDown nPowMaxAdjustUp : Int) (powLimit : Nat)
    (noRetargeting : Bool) (w : World) : World :=
  { w with regTestParams :=
             CRegTestParams.UpdateRegtestPow nPowMaxAdjustDown nPowMaxAdjustUp powLimit
               noRetargeting w.regTestParams }


/-! ## The resolver as the specification words it -/

/-- The height substitution in the words of the specification (§4.4 step 2):
`activation + floor((height - activation) / ratio)` when the upgrade is active,
the height itself otherwise; `floor` is the floor of the rational quotient. -/
def specAdjustedHeight (active : Bool) (activation ratio height : Int) : Int :=
  if active then activation + ⌊((height - activation : Int) : ℚ) / ((ratio : Int) : ℚ)⌋
  else height

/-- The address-change interval in the words of the specification (§4.4 step 3):
`ceil(lastRewardHeight / addressCount)`, the ceiling of the rational quotient. -/
def specAddressChangeInterval (lastRewardHeight : Int) (addressCount : Nat) : Int :=
  ⌈((lastRewardHeight : Int) : ℚ) / ((addressCount : Nat) : ℚ)⌉

/-! ## Sample configurations -/

/-- The upgrade table written by the `CMainParams` constructor (lines 112-142). -/
def mainUpgrades : Consensus.UpgradeIndex → Consensus.NetworkUpgrade
  | .BASE_SPROUT => ⟨170002, Consensus.NetworkUpgrade.ALWAYS_ACTIVE⟩
  | .UPGRADE_TESTDUMMY => ⟨170002, Consensus.NetworkUpgrade.NO_ACTIVATION_HEIGHT⟩
  | .UPGRADE_OVERWINTER => ⟨170005, 1⟩
  | .UPGRADE_SAPLING => ⟨170007, 1⟩
  | .UPGRADE_BLOSSOM => ⟨170009, 1⟩
  | .UPGRADE_HEARTWOOD => ⟨170011, 1⟩
  | .UPGRADE_CANOPY => ⟨170013, 1⟩
  | .UPGRADE_NU5 => ⟨170100, 1⟩
  | .UPGRADE_NU6 => ⟨170120, 1⟩
  | .UPGRADE_NU6_1 => ⟨170140, 1⟩
  | .UPGRADE_ZFUTURE => ⟨0x7FFFFFFF, Consensus.NetworkUpgrade.NO_ACTIVATION_HEIGHT⟩

/-- The table of `CMainParams` with every activation at height 1 moved to a given
height; at height 1 it is the table of `CMainParams` itself. -/
def sampleUpgrades (activationHeight : Int) (idx : Consensus.UpgradeIndex) :
    Consensus.NetworkUpgrade :=
  if (mainUpgrades idx).nActivationHeight = 1 then
    { mainUpgrades idx with nActivationHeight := activationHeight }
  else mainUpgrades idx

/-- A sample network: the scalar settings and upgrade table of `CMainParams`, with the
common activation height of its upgrades and the founders addresses left open, and no
stream or disbursement registered. The two halving intervals are sample values. -/
def sampleChain (activationHeight : Int) (addresses : List String) : CChainParams where
  strNetworkID := "sample"
  consensus :=
    { fCoinbaseMustBeShielded := true
      nSubsidySlowStartInterval := 20000
      nPreBlossomSubsidyHalvingInterval := 840000
      nPostBlossomSubsidyHalvingInterval := 1680000
      nMajorityEnforceBlockUpgrade := 750
      nMajorityRejectBlockOutdated := 950
      nMajorityWindow := 4000
      powLimit := 0x0007ffffffffffffffffffffffffffffffffffffffffffffffffffffffffffff
      nPowAveragingWindow := 17
      nPowMaxAdjustDown := 32
      nPowMaxAdjustUp := 16
      fPowNoRetargeting := false
      vUpgrades := sampleUpgrades activationHeight
      nFundingPeriodLength := 1680000 / 48
      vFundingStreams := fun _ => none
      vOnetimeLockboxDisbursements := fun _ => none }
  fZIP209Enabled := false
  vFoundersRewardAddress := addresses

/-- Sample values for the declarations of `ConsensusDecls`: a fixed last founders-reward height and
a given positive spacing ratio. -/
def sampleDecls (lastRewardHeight ratio : Int) (h : 1 ≤ ratio) : ConsensusDecls where
  GetLastFoundersRewardBlockHeight := fun _ _ => lastRewardHeight
  BLOSSOM_POW_TARGET_SPACING_RATIO := ratio
  ratio_pos := h

/-- A sample state: the state at start-up, three sample networks without founders
addresses, no command-line argument set. -/
def sampleWorld : World :=
  World.atStartup (sampleChain 1 []) (sampleChain 1 []) (sampleChain 1 []) (fun _ => 0)

/-- A stand-in for `SelectBaseParams` that accepts the three known names. -/
def sampleSelectBaseParams (chain : String) : Except Failure Unit :=
  if chain = CBaseChainParams.MAIN ∨ chain = CBaseChainParams.TESTNET
      ∨ chain = CBaseChainParams.REGTEST then .ok ()
  else .error .collaborator

/-! ## Funding streams and lockbox disbursements -/

/-- Constants that the constructors read and that are defined outside `chainparams.cpp`
(`consensus/params.h`, `amount.h`). They are parameters of the model: every theorem holds
for each value they can take. `POST_BLOSSOM_HALVING_INTERVAL` is a function-like macro;
`COIN` is positive. -/
structure ChainConstants where
  PRE_BLOSSOM_HALVING_INTERVAL : Int
  PRE_BLOSSOM_REGTEST_HALVING_INTERVAL : Int
  POST_BLOSSOM_HALVING_INTERVAL : Int → Int
  COIN : Int
  coin_pos : 0 < COIN

/-- The funding-stream identifiers in definition order, the range a query loops over. -/
def Consensus.allFundingStreams : List Consensus.FundingStreamIndex :=
  [.FS_ZIP214_BP, .FS_ZIP214_ZF, .FS_ZIP214_MG, .FS_FPF_ZCG, .FS_DEFERRED, .FS_FPF_ZCG_H3,
   .FS_CCF_H3]

/-- The one-time disbursement identifiers in definition order. -/
def Consensus.allOnetimeLockboxDisbursements :
    List Consensus.OnetimeLockboxDisbursementIndex :=
  [.LD_ZIP271_NU6_1_CHUNK_1, .LD_ZIP271_NU6_1_CHUNK_2, .LD_ZIP271_NU6_1_CHUNK_3,
   .LD_ZIP271_NU6_1_CHUNK_4, .LD_ZIP271_NU6_1_CHUNK_5, .LD_ZIP271_NU6_1_CHUNK_6,
   .LD_ZIP271_NU6_1_CHUNK_7, .LD_ZIP271_NU6_1_CHUNK_8, .LD_ZIP271_NU6_1_CHUNK_9,
   .LD_ZIP271_NU6_1_CHUNK_10]

/-- Modelled from the spec: `Consensus::Params::AddZIP207FundingStream`, defined in
`consensus/params.cpp`, not in `chainparams.cpp`. §4.2: the registration operation; it
stores the stream (start inclusive, end exclusive, one recipient per funding period)
under its identifier. The validation that §4.2 attributes to registration is stated
separately as `FundingStreamValid`, so that the table a constructor submits can be
examined whether or not it is well-formed. -/
def AddZIP207FundingStream (consensus : Consensus.Params)
    (idx : Consensus.FundingStreamIndex) (startHeight endHeight : Int)
    (strAddresses : List String) : Consensus.Params :=
  { consensus with
      vFundingStreams := Function.update consensus.vFundingStreams idx
        (some ⟨startHeight, endHeight, strAddresses, false⟩) }

/-- Modelled from the spec: `Consensus::Params::AddZIP207LockboxStream`, defined in
`consensus/params.cpp`, not in `chainparams.cpp`. §3 and §4.2: a lockbox-flagged stream
has no external recipient; it is stored under its identifier like any other stream. -/
def AddZIP207LockboxStream (consensus : Consensus.Params)
    (idx : Consensus.FundingStreamIndex) (startHeight endHeight : Int) : Consensus.Params :=
  { consensus with
      vFundingStreams := Function.update consensus.vFundingStreams idx
        (some ⟨startHeight, endHeight, [], true⟩) }

/-- Modelled from the spec: `Consensus::Params::AddZIP271LockboxDisbursement`, defined in
`consensus/params.cpp`, not in `chainparams.cpp`. §3 OnetimeLockboxDisbursement: an entry
with its governing upgrade, amount and destination, stored under its identifier. -/
def AddZIP271LockboxDisbursement (consensus : Consensus.Params)
    (idx : Consensus.OnetimeLockboxDisbursementIndex) (upgrade : Consensus.UpgradeIndex)
    (zatoshis : Int) (strAddress : String) : Consensus.Params :=
  { consensus with
      vOnetimeLockboxDisbursements :=
        Function.update consensus.vOnetimeLockboxDisbursements idx
          (some ⟨upgrade, zatoshis, strAddress⟩) }

/-- Modelled from the spec: `Consensus::Params::GetActiveFundingStreams`, defined in
`consensus/params.cpp`, not in `chainparams.cpp`. §4.2 `ActiveStreams(height)`: all
streams where `start_height <= height < end_height`, in identifier order. -/
def GetActiveFundingStreams (consensus : Consensus.Params) (nHeight : Int) :
    List Consensus.FundingStream :=
  Consensus.allFundingStreams.filterMap fun idx =>
    match consensus.vFundingStreams idx with
    | some fs => if fs.startHeight ≤ nHeight ∧ nHeight < fs.endHeight then some fs else none
    | none => none

/-- What a funding stream pays to at a height: an external address, or the internal
accounting sink of a lockbox stream. -/
inductive Destination where
  | address (strAddress : String)
  | lockbox
  deriving DecidableEq, Repr

/-- Modelled from the spec: the period index of §4.2,
`(height - stream.start_height) / period_length` with truncating integer division; the
period length is the network-wide `nFundingPeriodLength`. -/
def FundingPeriodIndex (consensus : Consensus.Params) (fs : Consensus.FundingStream)
    (nHeight : Int) : Int :=
  (nHeight - fs.startHeight).tdiv consensus.nFundingPeriodLength

/-- Modelled from the spec: `RecipientAt(stream, height)` of §4.2, whose code is in
`consensus/funding.cpp` and `consensus/params.cpp`, not in `chainparams.cpp`. The period
index selects from the stream's recipient sequence; an index outside the sequence is the
fatal internal-consistency failure; a lockbox stream resolves to the internal sink. A
period length of 0 is a division by zero. -/
def RecipientAt (consensus : Consensus.Params) (fs : Consensus.FundingStream)
    (nHeight : Int) : Except Failure Destination :=
  if consensus.nFundingPeriodLength = 0 then .error .divisionByZero
  else if fs.isLockbox then .ok .lockbox
  else if FundingPeriodIndex consensus fs nHeight < 0 then .error .inconsistentSchedule
  else
    match fs.recipients[(FundingPeriodIndex consensus fs nHeight).toNat]? with
    | some strAddress => .ok (.address strAddress)
    | none => .error .inconsistentSchedule

/-- Modelled from the spec: `Consensus::Params::GetActiveFundingStreamElements`, defined
in `consensus/params.cpp`, not in `chainparams.cpp`. The specification has no entry of
its own for it; it is one element per active stream of §4.2, the stream paired with the
recipient that `RecipientAt` resolves at the height. -/
def GetActiveFundingStreamElements (consensus : Consensus.Params) (nHeight : Int) :
    List (Consensus.FundingStream × Except Failure Destination) :=
  (GetActiveFundingStreams consensus nHeight).map fun fs => (fs, RecipientAt consensus fs nHeight)

/-- Modelled from the spec: `Consensus::Params::GetLockboxDisbursementsForHeight`,
defined in `consensus/params.cpp`, not in `chainparams.cpp`. §4.3
`DisbursementsAt(height)`: all entries whose governing upgrade's activation height equals
the height exactly, in identifier order. -/
def GetLockboxDisbursementsForHeight (consensus : Consensus.Params) (nHeight : Int) :
    List Consensus.OnetimeLockboxDisbursement :=
  Consensus.allOnetimeLockboxDisbursements.filterMap fun idx =>
    match consensus.vOnetimeLockboxDisbursements idx with
    | some ld =>
      if (consensus.vUpgrades ld.upgrade).nActivationHeight = nHeight then some ld else none
    | none => none

/-- The recipient count in the words of the specification (§3):
`ceil((end_height - start_height) / period_length)`, the ceiling of the rational
quotient. -/
def specRecipientCount (startHeight endHeight periodLength : Int) : Int :=
  ⌈((endHeight - startHeight : Int) : ℚ) / ((periodLength : Int) : ℚ)⌉

/-- Modelled from the spec: the invariant of §3 that registration validates:
`end_height > start_height`, and for a stream with external recipients the recipient
sequence has `specRecipientCount` entries. -/
def FundingStreamValid (periodLength : Int) (fs : Consensus.FundingStream) : Prop :=
  fs.endHeight > fs.startHeight ∧
  (fs.isLockbox = false →
    (fs.recipients.length : Int) = specRecipientCount fs.startHeight fs.endHeight periodLength)

/-! ## The three networks (`chainparams.cpp` lines 86-779) -/

/-- The vector `bp_addresses` of the `CMainParams` constructor (lines 175-224). -/
def mainBpAddresses : List String :=
  ["t3LmX1cxWPPPqL4TZHx42HU3U5ghbFjRiif", "t3Toxk1vJQ6UjWQ42tUJz2rV2feUWkpbTDs",
   "t3ZBdBe4iokmsjdhMuwkxEdqMCFN16YxKe6", "t3ZuaJziLM8xZ32rjDUzVjVtyYdDSz8GLWB",
   "t3bAtYWa4bi8VrtvqySxnbr5uqcG9czQGTZ", "t3dktADfb5Rmxncpe1HS5BRS5Gcj7MZWYBi",
   "t3hgskquvKKoCtvxw86yN7q8bzwRxNgUZmc", "t3R1VrLzwcxAZzkX4mX3KGbWpNsgtYtMntj",
   "t3ff6fhemqPMVujD3AQurxRxTdvS1pPSaa2", "t3cEUQFG3KYnFG6qYhPxSNgGi3HDjUPwC3J",
   "t3WR9F5U4QvUFqqx9zFmwT6xFqduqRRXnaa", "t3PYc1LWngrdUrJJbHkYPCKvJuvJjcm85Ch",
   "t3bgkjiUeatWNkhxY3cWyLbTxKksAfk561R", "t3Z5rrR8zahxUpZ8itmCKhMSfxiKjUp5Dk5",
   "t3PU1j7YW3fJ67jUbkGhSRto8qK2qXCUiW3", "t3S3yaT7EwNLaFZCamfsxxKwamQW2aRGEkh",
   "t3eutXKJ9tEaPSxZpmowhzKhPfJvmtwTEZK", "t3gbTb7brxLdVVghSPSd3ycGxzHbUpukeDm",
   "t3UCKW2LrHFqPMQFEbZn6FpjqnhAAbfpMYR", "t3NyHsrnYbqaySoQqEQRyTWkjvM2PLkU7Uu",
   "t3QEFL6acxuZwiXtW3YvV6njDVGjJ1qeaRo", "t3PdBRr2S1XTDzrV8bnZkXF3SJcrzHWe1wj",
   "t3ZWyRPpWRo23pKxTLtWsnfEKeq9T4XPxKM", "t3he6QytKCTydhpztykFsSsb9PmBT5JBZLi",
   "t3VWxWDsLb2TURNEP6tA1ZSeQzUmPKFNxRY", "t3NmWLvZkbciNAipauzsFRMxoZGqmtJksbz",
   "t3cKr4YxVPvPBG1mCvzaoTTdBNokohsRJ8n", "t3T3smGZn6BoSFXWWXa1RaoQdcyaFjMfuYK",
   "t3gkDUe9Gm4GGpjMk86TiJZqhztBVMiUSSA", "t3eretuBeBXFHe5jAqeSpUS1cpxVh51fAeb",
   "t3dN8g9zi2UGJdixGe9txeSxeofLS9t3yFQ", "t3S799pq9sYBFwccRecoTJ3SvQXRHPrHqvx",
   "t3fhYnv1S5dXwau7GED3c1XErzt4n4vDxmf", "t3cmE3vsBc5xfDJKXXZdpydCPSdZqt6AcNi",
   "t3h5fPdjJVHaH4HwynYDM5BB3J7uQaoUwKi", "t3Ma35c68BgRX8sdLDJ6WR1PCrKiWHG4Da9",
   "t3LokMKPL1J8rkJZvVpfuH7dLu6oUWqZKQK", "t3WFFGbEbhJWnASZxVLw2iTJBZfJGGX73mM",
   "t3L8GLEsUn4QHNaRYcX3EGyXmQ8kjpT1zTa", "t3PgfByBhaBSkH8uq4nYJ9ZBX4NhGCJBVYm",
   "t3WecsqKDhWXD4JAgBVcnaCC2itzyNZhJrv", "t3ZG9cSfopnsMQupKW5v9sTotjcP5P6RTbn",
   "t3hC1Ywb5zDwUYYV8LwhvF5rZ6m49jxXSG5", "t3VgMqDL15ZcyQDeqBsBW3W6rzfftrWP2yB",
   "t3LC94Y6BwLoDtBoK2NuewaEbnko1zvR9rm", "t3cWCUZJR3GtALaTcatrrpNJ3MGbMFVLRwQ",
   "t3YYF4rPLVxDcF9hHFsXyc5Yq1TFfbojCY6", "t3XHAGxRP2FNfhAjxGjxbrQPYtQQjc3RCQD"]

/-- The vector `bp_addresses` of the `CTestNetParams` constructor (lines 458-510). -/
def testBpAddresses : List String :=
  ["t26ovBdKAJLtrvBsE2QGF4nqBkEuptuPFZz", "t26ovBdKAJLtrvBsE2QGF4nqBkEuptuPFZz",
   "t26ovBdKAJLtrvBsE2QGF4nqBkEuptuPFZz", "t26ovBdKAJLtrvBsE2QGF4nqBkEuptuPFZz",
   "t2NNHrgPpE388atmWSF4DxAb3xAoW5Yp45M", "t2VMN28itPyMeMHBEd9Z1hm6YLkQcGA1Wwe",
   "t2CHa1TtdfUV8UYhNm7oxbzRyfr8616BYh2", "t2F77xtr28U96Z2bC53ZEdTnQSUAyDuoa67",
   "t2ARrzhbgcpoVBDPivUuj6PzXzDkTBPqfcT", "t278aQ8XbvFR15mecRguiJDQQVRNnkU8kJw",
   "t2Dp1BGnZsrTXZoEWLyjHmg3EPvmwBnPDGB", "t2KzeqXgf4ju33hiSqCuKDb8iHjPCjMq9iL",
   "t2Nyxqv1BiWY1eUSiuxVw36oveawYuo18tr", "t2DKFk5JRsVoiuinK8Ti6eM4Yp7v8BbfTyH",
   "t2CUaBca4k1x36SC4q8Nc8eBoqkMpF3CaLg", "t296SiKL7L5wvFmEdMxVLz1oYgd6fTfcbZj",
   "t29fBCFbhgsjL3XYEZ1yk1TUh7eTusB6dPg", "t2FGofLJXa419A76Gpf5ncxQB4gQXiQMXjK",
   "t2ExfrnRVnRiXDvxerQ8nZbcUQvNvAJA6Qu", "t28JUffLp47eKPRHKvwSPzX27i9ow8LSXHx",
   "t2JXWPtrtyL861rFWMZVtm3yfgxAf4H7uPA", "t2QdgbJoWfYHgyvEDEZBjHmgkr9yNJff3Hi",
   "t2QW43nkco8r32ZGRN6iw6eSzyDjkMwCV3n", "t2DgYDXMJTYLwNcxighQ9RCgPxMVATRcUdC",
   "t2Bop7dg33HGZx3wunnQzi2R2ntfpjuti3M", "t2HVeEwovcLq9RstAbYkqngXNEsCe2vjJh9",
   "t2HxbP5keQSx7p592zWQ5bJ5GrMmGDsV2Xa", "t2TJzUg2matao3mztBRJoWnJY6ekUau6tPD",
   "t29pMzxmo6wod25YhswcjKv3AFRNiBZHuhj", "t2QBQMRiJKYjshJpE6RhbF7GLo51yE6d4wZ",
   "t2F5RqnqguzZeiLtYHFx4yYfy6pDnut7tw5", "t2CHvyZANE7XCtg8AhZnrcHCC7Ys1jJhK13",
   "t2BRzpMdrGWZJ2upsaNQv6fSbkbTy7EitLo", "t2BFixHGQMAWDY67LyTN514xRAB94iEjXp3",
   "t2Uvz1iVPzBEWfQBH1p7NZJsFhD74tKaG8V", "t2CmFDj5q6rJSRZeHf1SdrowinyMNcj438n",
   "t2ErNvWEReTfPDBaNizjMPVssz66aVZh1hZ", "t2GeJQ8wBUiHKDVzVM5ZtKfY5reCg7CnASs",
   "t2L2eFtkKv1G6j55kLytKXTGuir4raAy3yr", "t2EK2b87dpPazb7VvmEGc8iR6SJ289RywGL",
   "t2DJ7RKeZJxdA4nZn8hRGXE8NUyTzjujph9", "t2K1pXo4eByuWpKLkssyMLe8QKUbxnfFC3H",
   "t2TB4mbSpuAcCWkH94Leb27FnRxo16AEHDg", "t2Phx4gVL4YRnNsH3jM1M7jE4Fo329E66Na",
   "t2VQZGmeNomN8c3USefeLL9nmU6M8x8CVzC", "t2RicCvTVTY5y9JkreSRv3Xs8q2K67YxHLi",
   "t2JrSLxTGc8wtPDe9hwbaeUjCrCfc4iZnDD", "t2Uh9Au1PDDSw117sAbGivKREkmMxVC5tZo",
   "t2FDwoJKLeEBMTy3oP7RLQ1Fihhvz49a3Bv", "t2FY18mrgtb7QLeHA8ShnxLXuW8cNQ2n1v8",
   "t2L15TkDYum7dnQRBqfvWdRe8Yw3jVy9z7g"]

/-- The ten identifiers `nu6_1_chunks` of both constructors (lines 286-297, 573-584). -/
def nu6_1_chunks : List Consensus.OnetimeLockboxDisbursementIndex :=
  [.LD_ZIP271_NU6_1_CHUNK_1, .LD_ZIP271_NU6_1_CHUNK_2, .LD_ZIP271_NU6_1_CHUNK_3,
   .LD_ZIP271_NU6_1_CHUNK_4, .LD_ZIP271_NU6_1_CHUNK_5, .LD_ZIP271_NU6_1_CHUNK_6,
   .LD_ZIP271_NU6_1_CHUNK_7, .LD_ZIP271_NU6_1_CHUNK_8, .LD_ZIP271_NU6_1_CHUNK_9,
   .LD_ZIP271_NU6_1_CHUNK_10]

/-- The upgrade table written by the `CTestNetParams` constructor (lines 393-423). -/
def testUpgrades : Consensus.UpgradeIndex → Consensus.NetworkUpgrade
  | .BASE_SPROUT => ⟨170002, Consensus.NetworkUpgrade.ALWAYS_ACTIVE⟩
  | .UPGRADE_TESTDUMMY => ⟨170002, Consensus.NetworkUpgrade.NO_ACTIVATION_HEIGHT⟩
  | .UPGRADE_OVERWINTER => ⟨170003, 1⟩
  | .UPGRADE_SAPLING => ⟨170007, 1⟩
  | .UPGRADE_BLOSSOM => ⟨170008, 1⟩
  | .UPGRADE_HEARTWOOD => ⟨170010, 1⟩
  | .UPGRADE_CANOPY => ⟨170012, 1⟩
  | .UPGRADE_NU5 => ⟨170050, 1⟩
  | .UPGRADE_NU6 => ⟨170110, 1⟩
  | .UPGRADE_NU6_1 => ⟨170130, 1⟩
  | .UPGRADE_ZFUTURE => ⟨0x7FFFFFFF, Consensus.NetworkUpgrade.NO_ACTIVATION_HEIGHT⟩

/-- The upgrade table written by the `CRegTestParams` constructor (lines 694-718). -/
def regTestUpgrades : Consensus.UpgradeIndex → Consensus.NetworkUpgrade
  | .BASE_SPROUT => ⟨170002, Consensus.NetworkUpgrade.ALWAYS_ACTIVE⟩
  | .UPGRADE_TESTDUMMY => ⟨170002, Consensus.NetworkUpgrade.NO_ACTIVATION_HEIGHT⟩
  | .UPGRADE_OVERWINTER => ⟨170003, 1⟩
  | .UPGRADE_SAPLING => ⟨170006, 1⟩
  | .UPGRADE_BLOSSOM => ⟨170008, 1⟩
  | .UPGRADE_HEARTWOOD => ⟨170010, 1⟩
  | .UPGRADE_CANOPY => ⟨170012, 1⟩
  | .UPGRADE_NU5 => ⟨170050, 1⟩
  | .UPGRADE_NU6 => ⟨170110, 1⟩
  | .UPGRADE_NU6_1 => ⟨170130, 1⟩
  | .UPGRADE_ZFUTURE => ⟨0x7FFFFFFF, Consensus.NetworkUpgrade.NO_ACTIVATION_HEIGHT⟩

/-- The constructor `CMainParams::CMainParams()` (lines 88-360): the scalar settings, the
upgrade table, then the funding-stream and disbursement registrations in source order,
and the cleared founders-address list. -/
def CMainParams (k : ChainConstants) : CChainParams :=
  let consensus : Consensus.Params :=
    { fCoinbaseMustBeShielded := true
      nSubsidySlowStartInterval := 20000
      nPreBlossomSubsidyHalvingInterval := k.PRE_BLOSSOM_HALVING_INTERVAL
      nPostBlossomSubsidyHalvingInterval :=
        k.POST_BLOSSOM_HALVING_INTERVAL k.PRE_BLOSSOM_HALVING_INTERVAL
      nMajorityEnforceBlockUpgrade := 750
      nMajorityRejectBlockOutdated := 950
      nMajorityWindow := 4000
      powLimit := 0x0007ffffffffffffffffffffffffffffffffffffffffffffffffffffffffffff
      nPowAveragingWindow := 17
      nPowMaxAdjustDown := 32
      nPowMaxAdjustUp := 16
      fPowNoRetargeting := false
      vUpgrades := mainUpgrades
      nFundingPeriodLength :=
        (k.POST_BLOSSOM_HALVING_INTERVAL k.PRE_BLOSSOM_HALVING_INTERVAL).tdiv 48
      vFundingStreams := fun _ => none
      vOnetimeLockboxDisbursements := fun _ => none }
  let canopyActivation := (consensus.vUpgrades .UPGRADE_CANOPY).nActivationHeight
  let nu6Activation := (consensus.vUpgrades .UPGRADE_NU6).nActivationHeight
  let nu6_1Activation := (consensus.vUpgrades .UPGRADE_NU6_1).nActivationHeight
  let bp_addresses := mainBpAddresses
  let zf_addresses := List.replicate 48 "t3dvVE3SQEi7kqNzwrfNePxZ1d4hUyztBA1"
  let mg_addresses := List.replicate 48 "t3XyYW8yBFRuMnfvm5KLGFbEVz25kckZXym"
  let consensus :=
    AddZIP207FundingStream consensus .FS_ZIP214_BP canopyActivation nu6Activation bp_addresses
  let consensus :=
    AddZIP207FundingStream consensus .FS_ZIP214_ZF canopyActivation nu6Activation zf_addresses
  let consensus :=
    AddZIP207FundingStream consensus .FS_ZIP214_MG canopyActivation nu6Activation mg_addresses
  let fpf_addresses := List.replicate 12 "t3cFfPt1Bcvgez9ZbMBFWeZsskxTkPzGCow"
  let consensus :=
    AddZIP207FundingStream consensus .FS_FPF_ZCG nu6Activation nu6_1Activation fpf_addresses
  let consensus := AddZIP207LockboxStream consensus .FS_DEFERRED nu6Activation nu6_1Activation
  let fpf_addresses_h3 := List.replicate 36 "t3cFfPt1Bcvgez9ZbMBFWeZsskxTkPzGCow"
  let consensus :=
    AddZIP207FundingStream consensus .FS_FPF_ZCG_H3 nu6_1Activation 4406400 fpf_addresses_h3
  let consensus := AddZIP207LockboxStream consensus .FS_CCF_H3 nu6_1Activation 4406400
  let nu6_1_kho_address := "t3ev37Q2uL1sfTsiJQJiWJoFzQpDhmnUwYo"
  let nu6_1_chunk_amount := 7875 * k.COIN
  let consensus := nu6_1_chunks.foldl
    (fun c idx =>
      AddZIP271LockboxDisbursement c idx .UPGRADE_NU6_1 nu6_1_chunk_amount nu6_1_kho_address)
    consensus
  { strNetworkID := "main"
    consensus := consensus
    fZIP209Enabled := false
    vFoundersRewardAddress := [] }

/-- The constructor `CTestNetParams::CTestNetParams()` (lines 369-661). -/
def CTestNetParams (k : ChainConstants) : CChainParams :=
  let consensus : Consensus.Params :=
    { fCoinbaseMustBeShielded := true
      nSubsidySlowStartInterval := 20000
      nPreBlossomSubsidyHalvingInterval := k.PRE_BLOSSOM_HALVING_INTERVAL
      nPostBlossomSubsidyHalvingInterval :=
        k.POST_BLOSSOM_HALVING_INTERVAL k.PRE_BLOSSOM_HALVING_INTERVAL
      nMajorityEnforceBlockUpgrade := 51
      nMajorityRejectBlockOutdated := 75
      nMajorityWindow := 400
      powLimit := 0x07ffffffffffffffffffffffffffffffffffffffffffffffffffffffffffffff
      nPowAveragingWindow := 17
      nPowMaxAdjustDown := 32
      nPowMaxAdjustUp := 16
      fPowNoRetargeting := false
      vUpgrades := testUpgrades
      nFundingPeriodLength :=
        (k.POST_BLOSSOM_HALVING_INTERVAL k.PRE_BLOSSOM_HALVING_INTERVAL).tdiv 48
      vFundingStreams := fun _ => none
      vOnetimeLockboxDisbursements := fun _ => none }
  let canopyActivation := (consensus.vUpgrades .UPGRADE_CANOPY).nActivationHeight
  let nu6Activation := (consensus.vUpgrades .UPGRADE_NU6).nActivationHeight
  let nu6_1Activation := (consensus.vUpgrades .UPGRADE_NU6_1).nActivationHeight
  let bp_addresses := testBpAddresses
  let zf_addresses := List.replicate 51 "t27eWDgjFYJGVXmzrXeVjnb5J3uXDM9xH9v"
  let mg_addresses := List.replicate 51 "t2Gvxv2uNM7hbbACjNox4H6DjByoKZ2Fa3P"
  let consensus :=
    AddZIP207FundingStream consensus .FS_ZIP214_BP canopyActivation 2796000 bp_addresses
  let consensus :=
    AddZIP207FundingStream consensus .FS_ZIP214_ZF canopyActivation 2796000 zf_addresses
  let consensus :=
    AddZIP207FundingStream consensus .FS_ZIP214_MG canopyActivation 2796000 mg_addresses
  let fpf_addresses := List.replicate 13 "t2HifwjUj9uyxr9bknR8LFuQbc98c3vkXtu"
  let consensus :=
    AddZIP207FundingStream consensus .FS_FPF_ZCG nu6Activation 3396000 fpf_addresses
  let consensus := AddZIP207LockboxStream consensus .FS_DEFERRED nu6Activation 3396000
  let fpf_addresses_h3 := List.replicate 27 "t2HifwjUj9uyxr9bknR8LFuQbc98c3vkXtu"
  let consensus :=
    AddZIP207FundingStream consensus .FS_FPF_ZCG_H3 nu6_1Activation 4476000 fpf_addresses_h3
  let consensus := AddZIP207LockboxStream consensus .FS_CCF_H3 nu6_1Activation 4476000
  let nu6_1_kho_address := "t2RnBRiqrN1nW4ecZs1Fj3WWjNdnSs4kiX8"
  let nu6_1_chunk_amount := 7875 * k.COIN
  let consensus := nu6_1_chunks.foldl
    (fun c idx =>
      AddZIP271LockboxDisbursement c idx .UPGRADE_NU6_1 nu6_1_chunk_amount nu6_1_kho_address)
    consensus
  { strNetworkID := "test"
    consensus := consensus
    fZIP209Enabled := false
    vFoundersRewardAddress := [] }

/-- The constructor `CRegTestParams::CRegTestParams()` (lines 670-778): it registers no
funding stream and no disbursement. -/
def CRegTestParams (k : ChainConstants) : CChainParams :=
  let consensus : Consensus.Params :=
    { fCoinbaseMustBeShielded := false
      nSubsidySlowStartInterval := 0
      nPreBlossomSubsidyHalvingInterval := k.PRE_BLOSSOM_REGTEST_HALVING_INTERVAL
      nPostBlossomSubsidyHalvingInterval :=
        k.POST_BLOSSOM_HALVING_INTERVAL k.PRE_BLOSSOM_REGTEST_HALVING_INTERVAL
      nMajorityEnforceBlockUpgrade := 750
      nMajorityRejectBlockOutdated := 950
      nMajorityWindow := 1000
      powLimit := 0x0f0f0f0f0f0f0f0f0f0f0f0f0f0f0f0f0f0f0f0f0f0f0f0f0f0f0f0f0f0f0f0f
      nPowAveragingWindow := 17
      nPowMaxAdjustDown := 0
      nPowMaxAdjustUp := 0
      fPowNoRetargeting := true
      vUpgrades := regTestUpgrades
      nFundingPeriodLength :=
        (k.POST_BLOSSOM_HALVING_INTERVAL k.PRE_BLOSSOM_REGTEST_HALVING_INTERVAL).tdiv 48
      vFundingStreams := fun _ => none
      vOnetimeLockboxDisbursements := fun _ => none }
  { strNetworkID := "regtest"
    consensus := consensus
    fZIP209Enabled := false
    vFoundersRewardAddress := [] }

/-- Lines 362, 663, 779 and 781: the state once the three static instances are
constructed and nothing is selected. -/
def startupWorld (k : ChainConstants) (mapArgs : String → Nat) : World :=
  World.atStartup (CMainParams k) (CTestNetParams k) (CRegTestParams k) mapArgs

/-- Sample values of the constants: halving intervals 840000 and 144, the post-upgrade
interval twice the pre-upgrade one, and `COIN = 100000000`. -/
def sampleConstants : ChainConstants where
  PRE_BLOSSOM_HALVING_INTERVAL := 840000
  PRE_BLOSSOM_REGTEST_HALVING_INTERVAL := 144
  POST_BLOSSOM_HALVING_INTERVAL := fun x => x * 2
  COIN := 100000000
  coin_pos := by decide

/-- The stream of the specification's scenario: start 0, end 96, recipients A and B. -/
def scenarioStream : Consensus.FundingStream := ⟨0, 96, ["A", "B"], false⟩

/-- The network of the specification's scenario: the regtest network with funding period
length 48 and `scenarioStream` stored by the regtest mutator. -/
def scenarioChain : CChainParams :=
  CRegTestParams.UpdateFundingStreamParameters .FS_ZIP214_BP scenarioStream
    { CRegTestParams sampleConstants with
      consensus := { (CRegTestParams sampleConstants).consensus with
        nFundingPeriodLength := 48 } }

/-! ## Upgrade order, the active upgrade and the proof-of-work assertion -/

/-- The position of an upgrade in definition order, the value of the enumerator
`Consensus::UpgradeIndex`. -/
def Consensus.UpgradeIndex.toNat : Consensus.UpgradeIndex → Nat
  | .BASE_SPROUT => 0
  | .UPGRADE_TESTDUMMY => 1
  | .UPGRADE_OVERWINTER => 2
  | .UPGRADE_SAPLING => 3
  | .UPGRADE_BLOSSOM => 4
  | .UPGRADE_HEARTWOOD => 5
  | .UPGRADE_CANOPY => 6
  | .UPGRADE_NU5 => 7
  | .UPGRADE_NU6 => 8
  | .UPGRADE_NU6_1 => 9
  | .UPGRADE_ZFUTURE => 10

/-- The upgrade identifiers in definition order. -/
def Consensus.allUpgrades : List Consensus.UpgradeIndex :=
  [.BASE_SPROUT, .UPGRADE_TESTDUMMY, .UPGRADE_OVERWINTER, .UPGRADE_SAPLING, .UPGRADE_BLOSSOM,
   .UPGRADE_HEARTWOOD, .UPGRADE_CANOPY, .UPGRADE_NU5, .UPGRADE_NU6, .UPGRADE_NU6_1,
   .UPGRADE_ZFUTURE]

/-- An upgrade has a defined activation height when its entry is not the
never-activates marker. -/
def hasActivationHeight (vUpgrades : Consensus.UpgradeIndex → Consensus.NetworkUpgrade)
    (idx : Consensus.UpgradeIndex) : Bool :=
  decide ((vUpgrades idx).nActivationHeight ≠ Consensus.NetworkUpgrade.NO_ACTIVATION_HEIGHT)

/-- The activation heights of the upgrades that have one, in definition order. -/
def definedActivationHeights
    (vUpgrades : Consensus.UpgradeIndex → Consensus.NetworkUpgrade) : List Int :=
  (Consensus.allUpgrades.filter (hasActivationHeight vUpgrades)).map
    fun idx => (vUpgrades idx).nActivationHeight

/-- Modelled from the spec: `ActiveUpgrade(height)` of §4.1, whose code is in
`consensus/upgrades.cpp`, not in `chainparams.cpp`: the highest-indexed upgrade whose
activation height is at most the height, "always-active" counting as 0 and
"never-activates" as +infinity, so that an upgrade qualifies exactly when
`NetworkUpgradeActive` answers true; a negative height fails with an invalid-argument
condition. The specification does not say what the answer is when no upgrade
qualifies; the base upgrade is returned then, a case that cannot arise on a table whose
base entry is always-active. -/
def ActiveUpgrade (consensus : Consensus.Params) (nHeight : Int) :
    Except Failure Consensus.UpgradeIndex :=
  if nHeight < 0 then .error .invalidArgument
  else
    .ok ((Consensus.allUpgrades.reverse.find? fun idx =>
            match NetworkUpgradeActive consensus nHeight idx with
            | .ok active => active
            | .error _ => false).getD .BASE_SPROUT)

/-- Line 84: `maxUint`, the 256-bit value with every bit set. -/
def maxUint : Nat := 0xffffffffffffffffffffffffffffffffffffffffffffffffffffffffffffffff

/-- The condition asserted at lines 105, 386 and 687:
`maxUint / UintToArith256(powLimit) >= nPowAveragingWindow`, the division being the
unsigned 256-bit one, which rounds down. -/
def powLimitAssertion (consensus : Consensus.Params) : Bool :=
  decide (consensus.nPowAveragingWindow ≤ ((maxUint / consensus.powLimit : Nat) : Int))

/-! ## Arithmetic facts about the `size_t` computations -/

theorem toSizeT_of_nonneg {x : Int} (h0 : 0 ≤ x) (h1 : x ≤ INT_MAX) :
    toSizeT x = x.toNat := by
  unfold toSizeT
  have hlt : x < (SIZE_MOD : Int) := by
    have : INT_MAX < (SIZE_MOD : Int) := by decide
    omega
  rw [Int.emod_eq_of_lt h0 hlt]

theorem addressChangeInterval_eq {max : Int} {n : Nat} (h0 : 0 ≤ max) (h1 : max ≤ INT_MAX)
    (hn : n ≤ VECTOR_MAX_SIZE) :
    addressChangeInterval max n = (max.toNat + n) / n := by
  unfold addressChangeInterval
  rw [toSizeT_of_nonneg h0 h1]
  have hm : max.toNat < 2 ^ 31 := by
    have : INT_MAX = 2 ^ 31 - 1 := rfl
    omega
  have hv : n < 2 ^ 63 := by
    have : VECTOR_MAX_SIZE = 2 ^ 63 - 1 := rfl
    omega
  have : max.toNat + n < SIZE_MOD := by
    have : SIZE_MOD = 2 ^ 64 := rfl
    omega
  rw [Nat.mod_eq_of_lt this]

theorem interval_eq_succ_div {m n : Nat} (hn : 1 ≤ n) : (m + n) / n = m / n + 1 := by
  rw [Nat.add_div_right m (by omega)]

theorem div_interval_lt {m h n : Nat} (hn : 1 ≤ n) (hle : h ≤ m) :
    h / ((m + n) / n) < n := by
  rw [interval_eq_succ_div hn]
  apply Nat.div_lt_of_lt_mul
  have h1 : m < n * (m / n + 1) := Nat.lt_mul_div_succ m (by omega)
  calc h ≤ m := hle
    _ < n * (m / n + 1) := h1
    _ = (m / n + 1) * n := Nat.mul_comm _ _

theorem addressChangeInterval_pos {max : Int} {n : Nat} (hn : 1 ≤ n)
    (hvec : n ≤ VECTOR_MAX_SIZE) (hmax : max ≤ INT_MAX) (h0 : 0 ≤ max) :
    1 ≤ addressChangeInterval max n := by
  rw [addressChangeInterval_eq h0 hmax hvec, interval_eq_succ_div hn]
  exact Nat.le_add_left 1 _

theorem addressIndex_lt {max h : Int} {n : Nat} (hn : 1 ≤ n) (hvec : n ≤ VECTOR_MAX_SIZE)
    (hmax : max ≤ INT_MAX) (hpos : 0 < h) (hle : h ≤ max) :
    addressIndex h (addressChangeInterval max n) < n := by
  unfold addressIndex
  rw [addressChangeInterval_eq (by omega) hmax hvec, toSizeT_of_nonneg (by omega) (by omega)]
  exact div_interval_lt hn (by omega)

/-- Once the range assertion holds and the vector is non-empty, the lookup returns the
element at the computed index. -/
theorem foundersAddressLookup_ok {addrs : List String} {max h : Int}
    (hn : 1 ≤ addrs.length) (hvec : addrs.length ≤ VECTOR_MAX_SIZE)
    (hmax : max ≤ INT_MAX) (hpos : 0 < h) (hle : h ≤ max) :
    ∃ a, addrs[addressIndex h (addressChangeInterval max addrs.length)]? = some a ∧
      foundersAddressLookup addrs max h = .ok a := by
  have hidx := addressIndex_lt hn hvec hmax hpos hle
  have hint := addressChangeInterval_pos hn hvec hmax (by omega : 0 ≤ max)
  refine ⟨addrs[addressIndex h (addressChangeInterval max addrs.length)],
    List.getElem?_eq_getElem hidx, ?_⟩
  unfold foundersAddressLookup
  rw [if_pos ⟨hpos, hle⟩, if_neg (by omega)]
  simp only []
  rw [if_neg (by omega), List.getElem?_eq_getElem hidx]

theorem foundersAddressLookup_out_of_range {addrs : List String} {max h : Int}
    (hout : ¬ (0 < h ∧ h ≤ max)) :
    foundersAddressLookup addrs max h = .error .rangeViolation := by
  unfold foundersAddressLookup
  rw [if_neg hout]

/-! ## Facts about the upgrade query and the height substitution -/

theorem NetworkUpgradeActive_neg {c : Consensus.Params} {h : Int} (idx : Consensus.UpgradeIndex)
    (hneg : h < 0) : NetworkUpgradeActive c h idx = .error .invalidArgument := by
  simp [NetworkUpgradeActive, hneg]

theorem NetworkUpgradeActive_of_nonneg {c : Consensus.Params} {h : Int}
    (idx : Consensus.UpgradeIndex) (h0 : 0 ≤ h) :
    NetworkUpgradeActive c h idx
      = .ok (decide ((c.vUpgrades idx).nActivationHeight
                ≠ Consensus.NetworkUpgrade.NO_ACTIVATION_HEIGHT
              ∧ (c.vUpgrades idx).nActivationHeight ≤ h)) := by
  unfold NetworkUpgradeActive
  rw [if_neg (by omega)]
  by_cases hA : (c.vUpgrades idx).nActivationHeight
      = Consensus.NetworkUpgrade.NO_ACTIVATION_HEIGHT
  · simp [hA]
  · simp [hA]

theorem NetworkUpgradeActive_true_iff {c : Consensus.Params} {h : Int}
    {idx : Consensus.UpgradeIndex} :
    NetworkUpgradeActive c h idx = .ok true ↔
      0 ≤ h ∧ (c.vUpgrades idx).nActivationHeight
                ≠ Consensus.NetworkUpgrade.NO_ACTIVATION_HEIGHT
        ∧ (c.vUpgrades idx).nActivationHeight ≤ h := by
  by_cases h0 : 0 ≤ h
  · rw [NetworkUpgradeActive_of_nonneg idx h0]
    simp [h0]
  · rw [NetworkUpgradeActive_neg idx (by omega)]
    simp [h0]

theorem foundersAdjustedHeight_neg (d : ConsensusDecls) {c : Consensus.Params} {h : Int}
    (hneg : h < 0) : foundersAdjustedHeight d c h = .error .invalidArgument := by
  simp [foundersAdjustedHeight, NetworkUpgradeActive_neg _ hneg]

theorem foundersAdjustedHeight_of_active (d : ConsensusDecls) {c : Consensus.Params} {h : Int}
    (hact : NetworkUpgradeActive c h .UPGRADE_BLOSSOM = .ok true) :
    foundersAdjustedHeight d c h
      = .ok (blossomAdjustedHeight (c.vUpgrades .UPGRADE_BLOSSOM).nActivationHeight
              d.BLOSSOM_POW_TARGET_SPACING_RATIO h) := by
  simp [foundersAdjustedHeight, hact]

theorem foundersAdjustedHeight_of_inactive (d : ConsensusDecls) {c : Consensus.Params} {h : Int}
    (hact : NetworkUpgradeActive c h .UPGRADE_BLOSSOM = .ok false) :
    foundersAdjustedHeight d c h = .ok h := by
  simp [foundersAdjustedHeight, hact]

theorem blossomAdjustedHeight_eq_ediv {A R h : Int} (hR : 1 ≤ R) (hh : A ≤ h) :
    blossomAdjustedHeight A R h = A + (h - A) / R := by
  unfold blossomAdjustedHeight
  rw [Int.tdiv_eq_ediv (by omega) (by omega)]

theorem blossomAdjustedHeight_bounds {A R h : Int} (hR : 1 ≤ R) (hh : A ≤ h) :
    A ≤ blossomAdjustedHeight A R h ∧ blossomAdjustedHeight A R h ≤ h := by
  rw [blossomAdjustedHeight_eq_ediv hR hh]
  have h1 : 0 ≤ (h - A) / R := Int.ediv_nonneg (by omega) (by omega)
  have h2 : (h - A) / R ≤ h - A := Int.ediv_le_self R (by omega)
  omega

theorem blossomAdjustedHeight_ratio_one {A h : Int} : blossomAdjustedHeight A 1 h = h := by
  unfold blossomAdjustedHeight
  rw [Int.tdiv_one]
  omega

theorem floor_rat_div_eq_ediv (a : Int) {R : Int} (hR : 1 ≤ R) :
    ⌊((a : Int) : ℚ) / ((R : Int) : ℚ)⌋ = a / R := by
  obtain ⟨n, rfl⟩ : ∃ n : Nat, R = (n : Int) := ⟨R.toNat, by omega⟩
  have := Rat.floor_intCast_div_natCast a n
  simpa using this

theorem blossomAdjustedHeight_add_mul {A R h : Int} (hR : 1 ≤ R) (hh : A ≤ h) (k : Nat) :
    blossomAdjustedHeight A R (h + (k : Int) * R) = blossomAdjustedHeight A R h + (k : Int) := by
  have hk : (0 : Int) ≤ (k : Int) * R := Int.mul_nonneg (Int.ofNat_nonneg k) (by omega)
  rw [blossomAdjustedHeight_eq_ediv hR hh, blossomAdjustedHeight_eq_ediv hR (by omega)]
  have : h + (k : Int) * R - A = (h - A) + (k : Int) * R := by ring
  rw [this, Int.add_mul_ediv_right _ _ (by omega : R ≠ 0)]
  ring

/-- A window of `k * R` heights that starts on a ratio boundary `A + j * R` is mapped
onto exactly the `k` heights `A + j, …, A + j + k - 1`. -/
theorem blossomAdjustedHeight_window {A R : Int} (hR : 1 ≤ R) (j k : Nat) (v : Int) :
    (∃ x, A + (j : Int) * R ≤ x ∧ x < A + (j : Int) * R + (k : Int) * R ∧
        blossomAdjustedHeight A R x = v)
      ↔ (A + (j : Int) ≤ v ∧ v < A + (j : Int) + (k : Int)) := by
  have hRpos : (0 : Int) < R := by omega
  have hj : (0 : Int) ≤ (j : Int) * R := Int.mul_nonneg (Int.ofNat_nonneg j) (by omega)
  constructor
  · rintro ⟨x, hlo, hhi, rfl⟩
    rw [blossomAdjustedHeight_eq_ediv hR (by omega)]
    have h1 : (j : Int) ≤ (x - A) / R := by
      rw [Int.le_ediv_iff_mul_le hRpos]
      omega
    have h2 : (x - A) / R < (j : Int) + (k : Int) := by
      rw [Int.ediv_lt_iff_lt_mul hRpos]
      have : ((j : Int) + (k : Int)) * R = (j : Int) * R + (k : Int) * R := by ring
      omega
    omega
  · rintro ⟨hlo, hhi⟩
    have hv : (0 : Int) ≤ v - A := by omega
    have hmul : (0 : Int) ≤ (v - A) * R := Int.mul_nonneg hv (by omega)
    have hlow : (j : Int) * R ≤ (v - A) * R :=
      Int.mul_le_mul_of_nonneg_right (by omega) (by omega)
    have hup : (v - A) * R < ((j : Int) + (k : Int)) * R :=
      Int.mul_lt_mul_of_pos_right (by omega) hRpos
    have hsplit : ((j : Int) + (k : Int)) * R = (j : Int) * R + (k : Int) * R := by ring
    refine ⟨A + (v - A) * R, by omega, by omega, ?_⟩
    rw [blossomAdjustedHeight_eq_ediv hR (by omega)]
    have : A + (v - A) * R - A = (v - A) * R := by ring
    rw [this, Int.mul_ediv_cancel _ (by omega : R ≠ 0)]
    ring

/-! ## Facts about the network selection -/

theorem SelectParams_of_ok {sbp : String → Except Failure Unit} {network : String} {w : World}
    (hok : (SelectParams sbp network w).1 = .ok ()) :
    ∃ r, ParamsOfChain network = .ok r ∧
      (SelectParams sbp network w).2.pCurrentParams = some r ∧
      (SelectParams sbp network w).2.mainParams = w.mainParams ∧
      (SelectParams sbp network w).2.testNetParams = w.testNetParams := by
  unfold SelectParams at hok ⊢
  cases hb : sbp network with
  | error e => rw [hb] at hok; exact absurd hok (by simp)
  | ok u =>
    cases hp : ParamsOfChain network with
    | error e => rw [hb] at hok; simp only [hp] at hok; exact absurd hok (by simp)
    | ok r =>
      refine ⟨r, rfl, ?_⟩
      simp only []
      split <;> split <;> exact ⟨rfl, rfl, rfl⟩

theorem SelectParams_of_not_ok {sbp : String → Except Failure Unit} {network : String}
    {w : World} (hno : (SelectParams sbp network w).1 ≠ .ok ()) :
    (SelectParams sbp network w).2 = w := by
  unfold SelectParams at hno ⊢
  cases hb : sbp network with
  | error e => rfl
  | ok u =>
    cases hp : ParamsOfChain network with
    | error e => rfl
    | ok r => rw [hb] at hno; simp only [hp] at hno; exact absurd rfl hno

theorem ParamsOfChain_ok_iff {chain : String} :
    (∃ r, ParamsOfChain chain = .ok r) ↔
      (chain = CBaseChainParams.MAIN ∨ chain = CBaseChainParams.TESTNET
        ∨ chain = CBaseChainParams.REGTEST) := by
  unfold ParamsOfChain
  constructor
  · rintro ⟨r, hr⟩
    by_cases h1 : chain = CBaseChainParams.MAIN
    · exact Or.inl h1
    · by_cases h2 : chain = CBaseChainParams.TESTNET
      · exact Or.inr (Or.inl h2)
      · by_cases h3 : chain = CBaseChainParams.REGTEST
        · exact Or.inr (Or.inr h3)
        · rw [if_neg h1, if_neg h2, if_neg h3] at hr
          exact absurd hr (by simp)
  · intro h
    by_cases h1 : chain = CBaseChainParams.MAIN
    · exact ⟨_, if_pos h1⟩
    · by_cases h2 : chain = CBaseChainParams.TESTNET
      · exact ⟨.testNetParams, by rw [if_neg h1, if_pos h2]⟩
      · by_cases h3 : chain = CBaseChainParams.REGTEST
        · exact ⟨.regTestParams, by rw [if_neg h1, if_neg h2, if_pos h3]⟩
        · rcases h with h | h | h
          · exact absurd h h1
          · exact absurd h h2
          · exact absurd h h3

theorem selectSequence_all_failed (sbp : String → Except Failure Unit) :
    ∀ (names : List String) (w : World),
      (∀ o ∈ (selectSequence sbp names w).1, o ≠ .ok ()) →
      (selectSequence sbp names w).2 = w
  | [], _, _ => rfl
  | n :: ns, w, hall => by
    have hhead : (SelectParams sbp n w).1 ≠ .ok () :=
      hall _ (by simp [selectSequence])
    have hw := SelectParams_of_not_ok hhead
    have htail : ∀ o ∈ (selectSequence sbp ns (SelectParams sbp n w).2).1, o ≠ .ok () := by
      intro o ho
      exact hall o (by simp [selectSequence, ho])
    have ih := selectSequence_all_failed sbp ns (SelectParams sbp n w).2 htail
    simp only [selectSequence]
    rw [ih, hw]

/-- For an activation height that is a block height or the never-activates marker, a
non-negative height has a substituted height between 0 and the height itself: no
intermediate value of line 828 leaves the range of `int`. -/
theorem foundersAdjustedHeight_bounds (d : ConsensusDecls) {c : Consensus.Params} {h : Int}
    (hA : 0 ≤ (c.vUpgrades .UPGRADE_BLOSSOM).nActivationHeight
      ∨ (c.vUpgrades .UPGRADE_BLOSSOM).nActivationHeight
          = Consensus.NetworkUpgrade.NO_ACTIVATION_HEIGHT)
    (h0 : 0 ≤ h) :
    ∃ h', foundersAdjustedHeight d c h = .ok h' ∧ 0 ≤ h' ∧ h' ≤ h := by
  by_cases hact : (c.vUpgrades .UPGRADE_BLOSSOM).nActivationHeight
        ≠ Consensus.NetworkUpgrade.NO_ACTIVATION_HEIGHT
      ∧ (c.vUpgrades .UPGRADE_BLOSSOM).nActivationHeight ≤ h
  · have hq : NetworkUpgradeActive c h .UPGRADE_BLOSSOM = .ok true :=
      NetworkUpgradeActive_true_iff.mpr ⟨h0, hact.1, hact.2⟩
    have hA0 : 0 ≤ (c.vUpgrades .UPGRADE_BLOSSOM).nActivationHeight := by
      rcases hA with hA | hA
      · exact hA
      · exact absurd hA hact.1
    have hb := blossomAdjustedHeight_bounds d.ratio_pos hact.2
    exact ⟨_, foundersAdjustedHeight_of_active d hq, by omega, hb.2⟩
  · have hq : NetworkUpgradeActive c h .UPGRADE_BLOSSOM = .ok false := by
      rw [NetworkUpgradeActive_of_nonneg _ h0]
      simp only [decide_eq_false hact]
    exact ⟨h, foundersAdjustedHeight_of_inactive d hq, h0, le_refl h⟩

/-! ## The founders-reward resolver -/

/-- C1: for a founders-address list of length n ≥ 1 (a representable vector), a
last-reward height max (an `int`) and a height h with 0 < h ≤ max, the divisor
`(max + n) / n` is at least 1, the index `h / ((max + n) / n)` is less than n, and the
lookup at that index finds an element. -/
theorem founders_index_in_bounds (addrs : List String) (max h : Int)
    (hn : 1 ≤ addrs.length) (hvec : addrs.length ≤ VECTOR_MAX_SIZE)
    (hmax : max ≤ INT_MAX) (hpos : 0 < h) (hle : h ≤ max) :
    1 ≤ addressChangeInterval max addrs.length ∧
    addressIndex h (addressChangeInterval max addrs.length) < addrs.length ∧
    ∃ a, addrs[addressIndex h (addressChangeInterval max addrs.length)]? = some a := by
  have hidx := addressIndex_lt hn hvec hmax hpos hle
  exact ⟨addressChangeInterval_pos hn hvec hmax (by omega), hidx,
    addrs[addressIndex h (addressChangeInterval max addrs.length)],
    List.getElem?_eq_getElem hidx⟩

/-- C1 at a concrete input: three addresses, last-reward height 10, height 10. -/
theorem founders_index_in_bounds_witness :
    1 ≤ addressChangeInterval 10 ["a", "b", "c"].length ∧
    addressIndex 10 (addressChangeInterval 10 ["a", "b", "c"].length) < ["a", "b", "c"].length ∧
    ∃ a, ["a", "b", "c"][addressIndex 10 (addressChangeInterval 10 ["a", "b", "c"].length)]?
      = some a :=
  founders_index_in_bounds ["a", "b", "c"] 10 10 (by decide) (by decide) (by decide)
    (by decide) (by decide)

/-- C2, refuted as stated: with Blossom activating at height 0, spacing ratio 2, one
founders address and last-reward height 10, the in-range height 1 is substituted by
`0 + (1 - 0) / 2 = 0`, the range assertion fails and no address is returned. -/
theorem founders_address_undefined_at_activation_zero :
    1 ≤ (sampleChain 0 ["a"]).vFoundersRewardAddress.length ∧
    (0 : Int) < 1 ∧
    (1 : Int) ≤ (sampleDecls 10 2 (by decide)).GetLastFoundersRewardBlockHeight
                  (sampleChain 0 ["a"]).consensus 0 ∧
    foundersAdjustedHeight (sampleDecls 10 2 (by decide)) (sampleChain 0 ["a"]).consensus 1
      = .ok 0 ∧
    GetFoundersRewardAddressAtHeight (sampleDecls 10 2 (by decide)) (sampleChain 0 ["a"]) 1
      = .error .rangeViolation := by
  refine ⟨by decide, by decide, by decide, ?_, ?_⟩ <;> rfl

/-- C2, amended: for a network with at least one founders address and every height h
with 0 < h ≤ lastRewardHeight, `GetFoundersRewardAddressAtHeight(h)` is defined whenever
the Blossom activation height is at least 1, or Blossom never activates, or the
activation height is 0 and the spacing ratio is 1: the substituted height h' passes the
range assertion (0 < h' ≤ h) and the result is the element of the address list at an
in-bounds index. -/
theorem founders_address_defined (d : ConsensusDecls) (p : CChainParams) (h : Int)
    (hn : 1 ≤ p.vFoundersRewardAddress.length)
    (hvec : p.vFoundersRewardAddress.length ≤ VECTOR_MAX_SIZE)
    (hmax : d.GetLastFoundersRewardBlockHeight p.consensus 0 ≤ INT_MAX)
    (hpos : 0 < h) (hle : h ≤ d.GetLastFoundersRewardBlockHeight p.consensus 0)
    (hA : 1 ≤ (p.consensus.vUpgrades .UPGRADE_BLOSSOM).nActivationHeight
        ∨ (p.consensus.vUpgrades .UPGRADE_BLOSSOM).nActivationHeight
            = Consensus.NetworkUpgrade.NO_ACTIVATION_HEIGHT
        ∨ ((p.consensus.vUpgrades .UPGRADE_BLOSSOM).nActivationHeight = 0
            ∧ d.BLOSSOM_POW_TARGET_SPACING_RATIO = 1)) :
    ∃ h' i a,
      foundersAdjustedHeight d p.consensus h = .ok h' ∧
      0 < h' ∧ h' ≤ h ∧
      i < p.vFoundersRewardAddress.length ∧
      p.vFoundersRewardAddress[i]? = some a ∧
      GetFoundersRewardAddressAtHeight d p h = .ok a := by
  have key : ∃ h', foundersAdjustedHeight d p.consensus h = .ok h' ∧ 0 < h' ∧ h' ≤ h := by
    by_cases hact : (p.consensus.vUpgrades .UPGRADE_BLOSSOM).nActivationHeight
          ≠ Consensus.NetworkUpgrade.NO_ACTIVATION_HEIGHT
        ∧ (p.consensus.vUpgrades .UPGRADE_BLOSSOM).nActivationHeight ≤ h
    · have hq : NetworkUpgradeActive p.consensus h .UPGRADE_BLOSSOM = .ok true :=
        NetworkUpgradeActive_true_iff.mpr ⟨by omega, hact.1, hact.2⟩
      refine ⟨_, foundersAdjustedHeight_of_active d hq, ?_⟩
      rcases hA with h1 | hno | hone
      · have hb := blossomAdjustedHeight_bounds d.ratio_pos hact.2
        exact ⟨by omega, hb.2⟩
      · exact absurd hno hact.1
      · rw [hone.2, blossomAdjustedHeight_ratio_one]
        exact ⟨hpos, le_refl h⟩
    · have hq : NetworkUpgradeActive p.consensus h .UPGRADE_BLOSSOM = .ok false := by
        rw [NetworkUpgradeActive_of_nonneg _ (by omega : 0 ≤ h)]
        simp only [decide_eq_false hact]
      exact ⟨h, foundersAdjustedHeight_of_inactive d hq, hpos, le_refl h⟩
  obtain ⟨h', hadj, hpos', hle'⟩ := key
  obtain ⟨a, hget, hlook⟩ :=
    foundersAddressLookup_ok hn hvec hmax hpos' (le_trans hle' hle)
  refine ⟨h', _, a, hadj, hpos', hle', addressIndex_lt hn hvec hmax hpos' (le_trans hle' hle),
    hget, ?_⟩
  unfold GetFoundersRewardAddressAtHeight
  simp only [hadj]
  exact hlook

/-- C2 (amended) at a concrete input: Blossom at height 1, ratio 2, three addresses,
last-reward height 10, height 7. -/
theorem founders_address_defined_witness :
    ∃ h' i a,
      foundersAdjustedHeight (sampleDecls 10 2 (by decide))
        (sampleChain 1 ["a", "b", "c"]).consensus 7 = .ok h' ∧
      0 < h' ∧ h' ≤ 7 ∧
      i < (sampleChain 1 ["a", "b", "c"]).vFoundersRewardAddress.length ∧
      (sampleChain 1 ["a", "b", "c"]).vFoundersRewardAddress[i]? = some a ∧
      GetFoundersRewardAddressAtHeight (sampleDecls 10 2 (by decide))
        (sampleChain 1 ["a", "b", "c"]) 7 = .ok a :=
  founders_address_defined (sampleDecls 10 2 (by decide)) (sampleChain 1 ["a", "b", "c"]) 7
    (by decide) (by decide) (by decide) (by decide) (by decide) (Or.inl (by decide))

/-- C3: for a Blossom activation height A that is a block height (A ≥ 0) or the
never-activates marker, when the upgrade query at h answers `active`, the height the
address index is computed from is the specification's `A + floor((h - A) / R)` if
`active` and h itself otherwise; in the active branch 0 ≤ A ≤ h, the difference h - A
lies between 0 and h (so the `int` arithmetic is exact) and the truncating division
equals the floor of the rational quotient; and the returned address is the lookup at
that substituted height. -/
theorem founders_height_substitution (d : ConsensusDecls) (p : CChainParams) (h : Int)
    (active : Bool)
    (hA : 0 ≤ (p.consensus.vUpgrades .UPGRADE_BLOSSOM).nActivationHeight
      ∨ (p.consensus.vUpgrades .UPGRADE_BLOSSOM).nActivationHeight
          = Consensus.NetworkUpgrade.NO_ACTIVATION_HEIGHT)
    (hact : NetworkUpgradeActive p.consensus h .UPGRADE_BLOSSOM = .ok active) :
    (active = true →
      0 ≤ (p.consensus.vUpgrades .UPGRADE_BLOSSOM).nActivationHeight ∧
      (p.consensus.vUpgrades .UPGRADE_BLOSSOM).nActivationHeight ≤ h ∧
      0 ≤ h - (p.consensus.vUpgrades .UPGRADE_BLOSSOM).nActivationHeight ∧
      h - (p.consensus.vUpgrades .UPGRADE_BLOSSOM).nActivationHeight ≤ h ∧
      (h - (p.consensus.vUpgrades .UPGRADE_BLOSSOM).nActivationHeight).tdiv
          d.BLOSSOM_POW_TARGET_SPACING_RATIO
        = ⌊((h - (p.consensus.vUpgrades .UPGRADE_BLOSSOM).nActivationHeight : Int) : ℚ)
            / (( d.BLOSSOM_POW_TARGET_SPACING_RATIO : Int) : ℚ)⌋) ∧
    foundersAdjustedHeight d p.consensus h
      = .ok (specAdjustedHeight active (p.consensus.vUpgrades .UPGRADE_BLOSSOM).nActivationHeight
              d.BLOSSOM_POW_TARGET_SPACING_RATIO h) ∧
    GetFoundersRewardAddressAtHeight d p h
      = foundersAddressLookup p.vFoundersRewardAddress
          (d.GetLastFoundersRewardBlockHeight p.consensus 0)
          (specAdjustedHeight active (p.consensus.vUpgrades .UPGRADE_BLOSSOM).nActivationHeight
              d.BLOSSOM_POW_TARGET_SPACING_RATIO h) := by
  have hfloor : active = true →
      0 ≤ (p.consensus.vUpgrades .UPGRADE_BLOSSOM).nActivationHeight ∧
      (p.consensus.vUpgrades .UPGRADE_BLOSSOM).nActivationHeight ≤ h ∧
      0 ≤ h - (p.consensus.vUpgrades .UPGRADE_BLOSSOM).nActivationHeight ∧
      h - (p.consensus.vUpgrades .UPGRADE_BLOSSOM).nActivationHeight ≤ h ∧
      (h - (p.consensus.vUpgrades .UPGRADE_BLOSSOM).nActivationHeight).tdiv
          d.BLOSSOM_POW_TARGET_SPACING_RATIO
        = ⌊((h - (p.consensus.vUpgrades .UPGRADE_BLOSSOM).nActivationHeight : Int) : ℚ)
            / (( d.BLOSSOM_POW_TARGET_SPACING_RATIO : Int) : ℚ)⌋ := by
    intro ht
    subst ht
    have hiff := NetworkUpgradeActive_true_iff.mp hact
    have hge := hiff.2.2
    have hA0 : 0 ≤ (p.consensus.vUpgrades .UPGRADE_BLOSSOM).nActivationHeight := by
      rcases hA with hA | hA
      · exact hA
      · exact absurd hA hiff.2.1
    refine ⟨hA0, hge, by omega, by omega, ?_⟩
    rw [floor_rat_div_eq_ediv _ d.ratio_pos,
      Int.tdiv_eq_ediv (by omega) (by have := d.ratio_pos; omega)]
  have hadj : foundersAdjustedHeight d p.consensus h
      = .ok (specAdjustedHeight active (p.consensus.vUpgrades .UPGRADE_BLOSSOM).nActivationHeight
              d.BLOSSOM_POW_TARGET_SPACING_RATIO h) := by
    cases active with
    | true =>
      rw [foundersAdjustedHeight_of_active d hact]
      simp only [specAdjustedHeight, if_true, blossomAdjustedHeight]
      rw [(hfloor rfl).2.2.2.2]
    | false =>
      rw [foundersAdjustedHeight_of_inactive d hact]
      simp [specAdjustedHeight]
  refine ⟨hfloor, hadj, ?_⟩
  unfold GetFoundersRewardAddressAtHeight
  simp only [hadj]

/-- C3 at the scenario of the specification: activation height 1, ratio 4, height 1000.
The substituted height is 1 + 249 = 250; with last-reward height 1000 and four addresses
the interval is 251, so the address is the one at index 250 / 251 = 0, where height 1000
itself would select index 3. -/
theorem founders_height_substitution_witness :
    NetworkUpgradeActive (sampleChain 1 ["a", "b", "c", "d"]).consensus 1000 .UPGRADE_BLOSSOM
      = .ok true ∧
    specAdjustedHeight true 1 4 1000 = 250 ∧
    foundersAdjustedHeight (sampleDecls 1000 4 (by decide))
      (sampleChain 1 ["a", "b", "c", "d"]).consensus 1000 = .ok 250 ∧
    GetFoundersRewardAddressAtHeight (sampleDecls 1000 4 (by decide))
      (sampleChain 1 ["a", "b", "c", "d"]) 1000
      = foundersAddressLookup ["a", "b", "c", "d"] 1000 250 ∧
    foundersAddressLookup ["a", "b", "c", "d"] 1000 250 = .ok "a" ∧
    foundersAddressLookup ["a", "b", "c", "d"] 1000 1000 = .ok "d" := by
  have hspec : specAdjustedHeight true 1 4 1000 = 250 := by
    simp only [specAdjustedHeight, if_true]
    norm_num [Int.floor_eq_iff]
  have hact : NetworkUpgradeActive (sampleChain 1 ["a", "b", "c", "d"]).consensus 1000
      .UPGRADE_BLOSSOM = .ok true := by rfl
  have hmain := founders_height_substitution (sampleDecls 1000 4 (by decide))
    (sampleChain 1 ["a", "b", "c", "d"]) 1000 true (Or.inl (by decide)) hact
  have hA : ((sampleChain 1 ["a", "b", "c", "d"]).consensus.vUpgrades
      .UPGRADE_BLOSSOM).nActivationHeight = 1 := by rfl
  have hR : ConsensusDecls.BLOSSOM_POW_TARGET_SPACING_RATIO (sampleDecls 1000 4 (by decide))
      = 4 := rfl
  rw [hA, hR, hspec] at hmain
  exact ⟨hact, hspec, hmain.2.1, hmain.2.2, by rfl, by rfl⟩

/-- C4, refuted as stated: for last-reward height 10 and 5 addresses the code computes
the interval (10 + 5) / 5 = 3, while ceil(10 / 5) = 2. -/
theorem address_change_interval_not_ceil :
    (0 : Int) ≤ 10 ∧ 1 ≤ 5 ∧
    addressChangeInterval 10 5 = 3 ∧ specAddressChangeInterval 10 5 = 2 ∧
    (addressChangeInterval 10 5 : Int) ≠ specAddressChangeInterval 10 5 := by
  have hspec : specAddressChangeInterval 10 5 = 2 := by
    unfold specAddressChangeInterval
    norm_num
  have hcode : addressChangeInterval 10 5 = 3 := by decide
  refine ⟨by decide, by decide, hcode, hspec, ?_⟩
  rw [hcode, hspec]
  decide

/-- C4, amended: for every last-reward height max ≥ 0 and address count n ≥ 1 the
interval `(max + n) / n` equals floor(max / n) + 1; it equals ceil(max / n) when n does
not divide max, and ceil(max / n) + 1 when n divides max. -/
theorem address_change_interval_value (max : Int) (n : Nat)
    (h0 : 0 ≤ max) (hmax : max ≤ INT_MAX) (hn : 1 ≤ n) (hvec : n ≤ VECTOR_MAX_SIZE) :
    (addressChangeInterval max n : Int) = max / (n : Int) + 1 ∧
    (¬ (n : Int) ∣ max →
      (addressChangeInterval max n : Int) = specAddressChangeInterval max n) ∧
    ((n : Int) ∣ max →
      (addressChangeInterval max n : Int) = specAddressChangeInterval max n + 1) := by
  have hval : (addressChangeInterval max n : Int) = max / (n : Int) + 1 := by
    rw [addressChangeInterval_eq h0 hmax hvec, interval_eq_succ_div hn]
    push_cast
    rw [Int.toNat_of_nonneg h0]
  have hnpos : (0 : ℚ) < (n : ℚ) := by exact_mod_cast hn
  have hnz : (n : Int) ≠ 0 := by omega
  have hfloor : ⌊((max : Int) : ℚ) / ((n : Nat) : ℚ)⌋ = max / (n : Int) :=
    Rat.floor_intCast_div_natCast max n
  refine ⟨hval, ?_, ?_⟩
  · intro hnd
    rw [hval]
    unfold specAddressChangeInterval
    symm
    rw [Int.ceil_eq_iff]
    have hlt : ((max / (n : Int) : Int) : ℚ) < (max : ℚ) / (n : ℚ) := by
      rw [lt_div_iff₀ hnpos]
      have h1 : max / (n : Int) * (n : Int) ≤ max := Int.ediv_mul_le max hnz
      have h2 : max / (n : Int) * (n : Int) ≠ max := by
        intro heq
        exact hnd ⟨max / (n : Int), by rw [mul_comm]; exact heq.symm⟩
      have h3 : max / (n : Int) * (n : Int) < max := lt_of_le_of_ne h1 h2
      exact_mod_cast h3
    have hle : (max : ℚ) / (n : ℚ) ≤ ((max / (n : Int) + 1 : Int) : ℚ) := by
      rw [div_le_iff₀ hnpos]
      have h1 : max < (max / (n : Int) + 1) * (n : Int) := by
        have := Int.lt_ediv_add_one_mul_self max (by omega : (0 : Int) < (n : Int))
        exact this
      exact_mod_cast le_of_lt h1
    constructor
    · push_cast
      linarith
    · exact hle
  · intro hd
    rw [hval]
    unfold specAddressChangeInterval
    obtain ⟨k, hk⟩ := hd
    have hq : (max : ℚ) / (n : ℚ) = ((k : Int) : ℚ) := by
      rw [div_eq_iff (ne_of_gt hnpos), hk]
      push_cast
      ring
    rw [hq, Int.ceil_intCast, hk, Int.mul_ediv_cancel_left k hnz]

/-- C4 (amended) at a concrete input: last-reward height 10 and 5 addresses. -/
theorem address_change_interval_value_witness :
    (addressChangeInterval 10 5 : Int) = 10 / ((5 : Nat) : Int) + 1 ∧
    (¬ ((5 : Nat) : Int) ∣ 10 →
      (addressChangeInterval 10 5 : Int) = specAddressChangeInterval 10 5) ∧
    (((5 : Nat) : Int) ∣ 10 →
      (addressChangeInterval 10 5 : Int) = specAddressChangeInterval 10 5 + 1) :=
  address_change_interval_value 10 5 (by decide) (by decide) (by decide) (by decide)

/-- C5, refuted as stated: with Blossom active from height 1, spacing ratio 2, one
address and last-reward height 10, the input height 15 lies above the last-reward
height, is substituted by 1 + (15 - 1) / 2 = 8, passes the range assertion and is
answered with an address. -/
theorem founders_address_above_last_height_accepted :
    (sampleDecls 10 2 (by decide)).GetLastFoundersRewardBlockHeight
        (sampleChain 1 ["a"]).consensus 0 = 10 ∧
    ¬ ((0 : Int) < 15 ∧ (15 : Int) ≤ 10) ∧
    NetworkUpgradeActive (sampleChain 1 ["a"]).consensus 15 .UPGRADE_BLOSSOM = .ok true ∧
    foundersAdjustedHeight (sampleDecls 10 2 (by decide)) (sampleChain 1 ["a"]).consensus 15
      = .ok 8 ∧
    GetFoundersRewardAddressAtHeight (sampleDecls 10 2 (by decide)) (sampleChain 1 ["a"]) 15
      = .ok "a" := by
  refine ⟨rfl, by decide, ?_, ?_, ?_⟩ <;> rfl

/-- C5, amended: for a Blossom activation height that is a block height (at least 0)
or the never-activates marker, the range requirement applies to the height after the
Blossom substitution. A negative input fails in the upgrade query; a non-negative input
h has a substituted height h' with 0 ≤ h' ≤ h and fails with a range violation exactly
when h' is not in (0, lastRewardHeight]; so height 0 is rejected, and every h above the
last-reward height is rejected when the upgrade is not active at h. -/
theorem founders_address_range_violation (d : ConsensusDecls) (p : CChainParams) (h : Int)
    (hA : 0 ≤ (p.consensus.vUpgrades .UPGRADE_BLOSSOM).nActivationHeight
      ∨ (p.consensus.vUpgrades .UPGRADE_BLOSSOM).nActivationHeight
          = Consensus.NetworkUpgrade.NO_ACTIVATION_HEIGHT) :
    (h < 0 → GetFoundersRewardAddressAtHeight d p h = .error .invalidArgument) ∧
    (0 ≤ h →
      ∃ h', foundersAdjustedHeight d p.consensus h = .ok h' ∧
        0 ≤ h' ∧ h' ≤ h ∧
        (GetFoundersRewardAddressAtHeight d p h = .error .rangeViolation ↔
          ¬ (0 < h' ∧ h' ≤ d.GetLastFoundersRewardBlockHeight p.consensus 0))) ∧
    (h = 0 → GetFoundersRewardAddressAtHeight d p h = .error .rangeViolation) ∧
    (d.GetLastFoundersRewardBlockHeight p.consensus 0 < h →
      NetworkUpgradeActive p.consensus h .UPGRADE_BLOSSOM = .ok false →
      GetFoundersRewardAddressAtHeight d p h = .error .rangeViolation) := by
  have hof : ∀ h', foundersAdjustedHeight d p.consensus h = .ok h' →
      GetFoundersRewardAddressAtHeight d p h
        = foundersAddressLookup p.vFoundersRewardAddress
            (d.GetLastFoundersRewardBlockHeight p.consensus 0) h' := by
    intro h' hadj
    unfold GetFoundersRewardAddressAtHeight
    simp only [hadj]
  refine ⟨?_, ?_, ?_, ?_⟩
  · intro hneg
    unfold GetFoundersRewardAddressAtHeight
    simp only [foundersAdjustedHeight_neg d hneg]
  · intro h0
    obtain ⟨h', hadj, hlo, hhi⟩ := foundersAdjustedHeight_bounds d hA h0
    refine ⟨h', hadj, hlo, hhi, ?_⟩
    rw [hof h' hadj]
    constructor
    · intro hres hin
      unfold foundersAddressLookup at hres
      rw [if_pos hin] at hres
      split at hres
      · exact absurd hres (by simp)
      · simp only [] at hres
        split at hres
        · exact absurd hres (by simp)
        · split at hres <;> exact absurd hres (by simp)
    · exact foundersAddressLookup_out_of_range
  · intro hz
    obtain ⟨h', hadj, hlo, hhi⟩ := foundersAdjustedHeight_bounds d hA (by omega : 0 ≤ h)
    rw [hof h' hadj]
    apply foundersAddressLookup_out_of_range
    omega
  · intro habove hinact
    rw [hof h (foundersAdjustedHeight_of_inactive d hinact)]
    apply foundersAddressLookup_out_of_range
    omega

/-- C5 (amended) at concrete inputs: Blossom from height 1, ratio 2, one address,
last-reward height 10. Height 25 is substituted by 13 and rejected; height 0 is
rejected; height -1 fails in the upgrade query. -/
theorem founders_address_range_violation_witness :
    GetFoundersRewardAddressAtHeight (sampleDecls 10 2 (by decide)) (sampleChain 1 ["a"]) (-1)
      = .error .invalidArgument ∧
    GetFoundersRewardAddressAtHeight (sampleDecls 10 2 (by decide)) (sampleChain 1 ["a"]) 0
      = .error .rangeViolation ∧
    foundersAdjustedHeight (sampleDecls 10 2 (by decide)) (sampleChain 1 ["a"]).consensus 25
      = .ok 13 ∧
    GetFoundersRewardAddressAtHeight (sampleDecls 10 2 (by decide)) (sampleChain 1 ["a"]) 25
      = .error .rangeViolation ∧
    (∃ h', foundersAdjustedHeight (sampleDecls 10 2 (by decide))
        (sampleChain 1 ["a"]).consensus 25 = .ok h' ∧
      0 ≤ h' ∧ h' ≤ 25 ∧
      (GetFoundersRewardAddressAtHeight (sampleDecls 10 2 (by decide))
          (sampleChain 1 ["a"]) 25 = .error .rangeViolation ↔
        ¬ (0 < h' ∧ h' ≤ (sampleDecls 10 2 (by decide)).GetLastFoundersRewardBlockHeight
            (sampleChain 1 ["a"]).consensus 0))) :=
  ⟨(founders_address_range_violation (sampleDecls 10 2 (by decide))
      (sampleChain 1 ["a"]) (-1) (Or.inl (by decide))).1 (by decide),
   (founders_address_range_violation (sampleDecls 10 2 (by decide))
      (sampleChain 1 ["a"]) 0 (Or.inl (by decide))).2.2.1 rfl,
   by rfl,
   by rfl,
   (founders_address_range_violation (sampleDecls 10 2 (by decide))
      (sampleChain 1 ["a"]) 25 (Or.inl (by decide))).2.1 (by decide)⟩

/-- C6, refuted as stated: with activation height 1 and spacing ratio 2, the two
consecutive post-activation heights 2 and 3 (k = 1, a window of k * R = 2 heights) are
substituted by 1 and 2, so the window covers two substituted heights, not exactly one. -/
theorem founders_rotation_unaligned_window :
    (0 : Int) ≤ ((sampleChain 1 ["a"]).consensus.vUpgrades .UPGRADE_BLOSSOM).nActivationHeight ∧
    ((sampleChain 1 ["a"]).consensus.vUpgrades .UPGRADE_BLOSSOM).nActivationHeight ≤ 2 ∧
    ConsensusDecls.BLOSSOM_POW_TARGET_SPACING_RATIO (sampleDecls 100 2 (by decide)) = 2 ∧
    foundersAdjustedHeight (sampleDecls 100 2 (by decide)) (sampleChain 1 ["a"]).consensus 2
      = .ok 1 ∧
    foundersAdjustedHeight (sampleDecls 100 2 (by decide)) (sampleChain 1 ["a"]).consensus 3
      = .ok 2 ∧
    ((List.range (1 * 2)).map fun i => blossomAdjustedHeight 1 2 (2 + (i : Int))) = [1, 2] ∧
    ((List.range (1 * 2)).map fun i => blossomAdjustedHeight 1 2 (2 + (i : Int))).dedup.length
      ≠ 1 := by
  refine ⟨by decide, by decide, rfl, by rfl, by rfl, by decide, by decide⟩

/-- C6, amended: for a Blossom activation height A ≥ 0, spacing ratio R ≥ 1 and a height
h ≥ A, the height substitution of `GetFoundersRewardAddressAtHeight` is
`remap(h) = A + (h - A) / R`, and `remap(h + R) = remap(h) + 1`; hence over `k * R` further
heights the substituted height advances by exactly k, and the `k * R` consecutive heights
that start on a ratio boundary `A + j * R` are mapped onto exactly the k heights
`A + j, …, A + j + k - 1`. -/
theorem founders_rotation_rate (d : ConsensusDecls) (c : Consensus.Params) (h : Int)
    (hA : 0 ≤ (c.vUpgrades .UPGRADE_BLOSSOM).nActivationHeight)
    (hh : (c.vUpgrades .UPGRADE_BLOSSOM).nActivationHeight ≤ h) :
    foundersAdjustedHeight d c h
      = .ok (blossomAdjustedHeight (c.vUpgrades .UPGRADE_BLOSSOM).nActivationHeight
              d.BLOSSOM_POW_TARGET_SPACING_RATIO h) ∧
    blossomAdjustedHeight (c.vUpgrades .UPGRADE_BLOSSOM).nActivationHeight
        d.BLOSSOM_POW_TARGET_SPACING_RATIO h
      = (c.vUpgrades .UPGRADE_BLOSSOM).nActivationHeight
        + (h - (c.vUpgrades .UPGRADE_BLOSSOM).nActivationHeight)
            / d.BLOSSOM_POW_TARGET_SPACING_RATIO ∧
    foundersAdjustedHeight d c (h + d.BLOSSOM_POW_TARGET_SPACING_RATIO)
      = .ok (blossomAdjustedHeight (c.vUpgrades .UPGRADE_BLOSSOM).nActivationHeight
              d.BLOSSOM_POW_TARGET_SPACING_RATIO h + 1) ∧
    (∀ k : Nat,
      foundersAdjustedHeight d c (h + (k : Int) * d.BLOSSOM_POW_TARGET_SPACING_RATIO)
        = .ok (blossomAdjustedHeight (c.vUpgrades .UPGRADE_BLOSSOM).nActivationHeight
                d.BLOSSOM_POW_TARGET_SPACING_RATIO h + (k : Int))) ∧
    (∀ (j k : Nat) (v : Int),
      (∃ x, (c.vUpgrades .UPGRADE_BLOSSOM).nActivationHeight
              + (j : Int) * d.BLOSSOM_POW_TARGET_SPACING_RATIO ≤ x ∧
            x < (c.vUpgrades .UPGRADE_BLOSSOM).nActivationHeight
              + (j : Int) * d.BLOSSOM_POW_TARGET_SPACING_RATIO
              + (k : Int) * d.BLOSSOM_POW_TARGET_SPACING_RATIO ∧
            foundersAdjustedHeight d c x = .ok v)
        ↔ ((c.vUpgrades .UPGRADE_BLOSSOM).nActivationHeight + (j : Int) ≤ v ∧
            v < (c.vUpgrades .UPGRADE_BLOSSOM).nActivationHeight + (j : Int) + (k : Int))) := by
  have hR := d.ratio_pos
  have hno : (c.vUpgrades .UPGRADE_BLOSSOM).nActivationHeight
      ≠ Consensus.NetworkUpgrade.NO_ACTIVATION_HEIGHT := by
    have : Consensus.NetworkUpgrade.NO_ACTIVATION_HEIGHT = -1 := rfl
    omega
  have hadj : ∀ x, (c.vUpgrades .UPGRADE_BLOSSOM).nActivationHeight ≤ x →
      foundersAdjustedHeight d c x
        = .ok (blossomAdjustedHeight (c.vUpgrades .UPGRADE_BLOSSOM).nActivationHeight
                d.BLOSSOM_POW_TARGET_SPACING_RATIO x) := by
    intro x hx
    exact foundersAdjustedHeight_of_active d
      (NetworkUpgradeActive_true_iff.mpr ⟨by omega, hno, hx⟩)
  have hstep : ∀ k : Nat,
      foundersAdjustedHeight d c (h + (k : Int) * d.BLOSSOM_POW_TARGET_SPACING_RATIO)
        = .ok (blossomAdjustedHeight (c.vUpgrades .UPGRADE_BLOSSOM).nActivationHeight
                d.BLOSSOM_POW_TARGET_SPACING_RATIO h + (k : Int)) := by
    intro k
    have hk : (0 : Int) ≤ (k : Int) * d.BLOSSOM_POW_TARGET_SPACING_RATIO :=
      Int.mul_nonneg (Int.ofNat_nonneg k) (by omega)
    rw [hadj _ (by omega), blossomAdjustedHeight_add_mul hR hh k]
  refine ⟨hadj h hh, blossomAdjustedHeight_eq_ediv hR hh, ?_, hstep, ?_⟩
  · have := hstep 1
    simpa using this
  · intro j k v
    rw [← blossomAdjustedHeight_window hR j k v]
    have hj : (0 : Int) ≤ (j : Int) * d.BLOSSOM_POW_TARGET_SPACING_RATIO :=
      Int.mul_nonneg (Int.ofNat_nonneg j) (by omega)
    constructor
    · rintro ⟨x, hlo, hhi, hx⟩
      rw [hadj x (by omega)] at hx
      injection hx with hx
      exact ⟨x, hlo, hhi, hx⟩
    · rintro ⟨x, hlo, hhi, hx⟩
      exact ⟨x, hlo, hhi, by rw [hadj x (by omega), hx]⟩

/-- C6 (amended) at a concrete input: activation height 1, ratio 2, height 6: the
substituted height is 3, two heights further it is 4, and ten heights further it is 8. -/
theorem founders_rotation_rate_witness :
    foundersAdjustedHeight (sampleDecls 100 2 (by decide)) (sampleChain 1 ["a"]).consensus 6
      = .ok 3 ∧
    foundersAdjustedHeight (sampleDecls 100 2 (by decide)) (sampleChain 1 ["a"]).consensus (6 + 2)
      = .ok (3 + 1) ∧
    foundersAdjustedHeight (sampleDecls 100 2 (by decide)) (sampleChain 1 ["a"]).consensus
        (6 + ((5 : Nat) : Int) * 2)
      = .ok (3 + ((5 : Nat) : Int)) := by
  have hmain := founders_rotation_rate (sampleDecls 100 2 (by decide))
    (sampleChain 1 ["a"]).consensus 6 (by decide) (by decide)
  have hval : blossomAdjustedHeight
      ((sampleChain 1 ["a"]).consensus.vUpgrades .UPGRADE_BLOSSOM).nActivationHeight
      ( ConsensusDecls.BLOSSOM_POW_TARGET_SPACING_RATIO (sampleDecls 100 2 (by decide))) 6
      = 3 := by rfl
  have hR : ConsensusDecls.BLOSSOM_POW_TARGET_SPACING_RATIO (sampleDecls 100 2 (by decide))
      = 2 := rfl
  rw [hval, hR] at hmain
  exact ⟨hmain.1, hmain.2.2.1, hmain.2.2.2.1 5⟩

/-- C7: for a network whose founders-address list is empty and whose last-reward height
is 0, `GetFoundersRewardAddressAtHeight(h)` returns no address for any h: the range
assertion `0 < h' ≤ 0` fails for every substituted height h', before the division by the
address count, so the outcome is never a division by zero. A negative h already fails in
the upgrade query, every other h fails with the range violation. -/
theorem founders_address_disabled (d : ConsensusDecls) (p : CChainParams) (h : Int)
    (hempty : p.vFoundersRewardAddress = [])
    (hlast : d.GetLastFoundersRewardBlockHeight p.consensus 0 = 0) :
    (∀ h', foundersAddressLookup p.vFoundersRewardAddress
        (d.GetLastFoundersRewardBlockHeight p.consensus 0) h' = .error .rangeViolation) ∧
    (∀ max h', 0 < h' ∧ h' ≤ max →
      foundersAddressLookup p.vFoundersRewardAddress max h' = .error .divisionByZero) ∧
    (∀ a, GetFoundersRewardAddressAtHeight d p h ≠ .ok a) ∧
    GetFoundersRewardAddressAtHeight d p h ≠ .error .divisionByZero ∧
    GetFoundersRewardAddressAtHeight d p h
      = .error (if h < 0 then .invalidArgument else .rangeViolation) := by
  have hlook : ∀ h', foundersAddressLookup p.vFoundersRewardAddress
      (d.GetLastFoundersRewardBlockHeight p.consensus 0) h' = .error .rangeViolation := by
    intro h'
    apply foundersAddressLookup_out_of_range
    rw [hlast]
    omega
  have hres : GetFoundersRewardAddressAtHeight d p h
      = .error (if h < 0 then .invalidArgument else .rangeViolation) := by
    unfold GetFoundersRewardAddressAtHeight
    by_cases hneg : h < 0
    · simp only [foundersAdjustedHeight_neg d hneg, if_pos hneg]
    · rw [if_neg hneg]
      cases hadj : foundersAdjustedHeight d p.consensus h with
      | error e =>
        exfalso
        unfold foundersAdjustedHeight at hadj
        rw [NetworkUpgradeActive_of_nonneg _ (by omega : 0 ≤ h)] at hadj
        simp only [] at hadj
        split at hadj <;> exact absurd hadj (by simp)
      | ok h' => exact hlook h'
  refine ⟨hlook, ?_, ?_, ?_, hres⟩
  · intro max h' hin
    unfold foundersAddressLookup
    rw [if_pos hin, hempty]
    rfl
  · intro a
    rw [hres]
    simp
  · rw [hres]
    split <;> simp

/-- C7 at a concrete input: the sample network with no founders address and last-reward
height 0, queried at height 1. -/
theorem founders_address_disabled_witness :
    GetFoundersRewardAddressAtHeight (sampleDecls 0 2 (by decide)) (sampleChain 1 []) 1
      = .error .rangeViolation :=
  (founders_address_disabled (sampleDecls 0 2 (by decide)) (sampleChain 1 []) 1 rfl rfl).2.2.2.2

/-- C8: for an `int` i, `GetFoundersRewardAddressAtIndex(i)` returns an address exactly
when 0 ≤ i < list length, and then it is the i-th element of the list; for every other i
the assertion fails; in particular it fails for every i when the list is empty. -/
theorem founders_address_at_index (p : CChainParams) (i : Int) (hint : i ≤ INT_MAX) :
    ((∃ a, GetFoundersRewardAddressAtIndex p i = .ok a)
      ↔ (0 ≤ i ∧ i < (p.vFoundersRewardAddress.length : Int))) ∧
    (∀ a, GetFoundersRewardAddressAtIndex p i = .ok a →
      p.vFoundersRewardAddress[i.toNat]? = some a) ∧
    (¬ (0 ≤ i ∧ i < (p.vFoundersRewardAddress.length : Int)) →
      GetFoundersRewardAddressAtIndex p i = .error .indexAssertion) ∧
    (p.vFoundersRewardAddress = [] →
      GetFoundersRewardAddressAtIndex p i = .error .indexAssertion) := by
  have hout : ¬ (0 ≤ i ∧ i < (p.vFoundersRewardAddress.length : Int)) →
      GetFoundersRewardAddressAtIndex p i = .error .indexAssertion := by
    intro hno
    unfold GetFoundersRewardAddressAtIndex
    rw [if_neg]
    rintro ⟨h0, hlt⟩
    rw [toSizeT_of_nonneg h0 hint] at hlt
    exact hno ⟨h0, by omega⟩
  have hin : 0 ≤ i ∧ i < (p.vFoundersRewardAddress.length : Int) →
      ∃ a, p.vFoundersRewardAddress[i.toNat]? = some a ∧
        GetFoundersRewardAddressAtIndex p i = .ok a := by
    rintro ⟨h0, hlt⟩
    have hlt' : i.toNat < p.vFoundersRewardAddress.length := by omega
    refine ⟨p.vFoundersRewardAddress[i.toNat], List.getElem?_eq_getElem hlt', ?_⟩
    unfold GetFoundersRewardAddressAtIndex
    rw [toSizeT_of_nonneg h0 hint, if_pos ⟨h0, hlt'⟩, List.getElem?_eq_getElem hlt']
  refine ⟨⟨?_, fun hi => ?_⟩, ?_, hout, ?_⟩
  · rintro ⟨a, ha⟩
    by_contra hno
    rw [hout hno] at ha
    exact absurd ha (by simp)
  · obtain ⟨a, _, ha⟩ := hin hi
    exact ⟨a, ha⟩
  · intro a ha
    by_cases hi : 0 ≤ i ∧ i < (p.vFoundersRewardAddress.length : Int)
    · obtain ⟨b, hb, hres⟩ := hin hi
      rw [hres] at ha
      injection ha with ha
      rw [← ha]
      exact hb
    · rw [hout hi] at ha
      exact absurd ha (by simp)
  · intro hempty
    apply hout
    rw [hempty]
    simp only [List.length_nil]
    omega

/-- C8 at a concrete input: a three-element list answers index 1 and rejects the
indices 3 and -1. -/
theorem founders_address_at_index_witness :
    (∃ a, GetFoundersRewardAddressAtIndex (sampleChain 1 ["a", "b", "c"]) 1 = .ok a) ∧
    GetFoundersRewardAddressAtIndex (sampleChain 1 ["a", "b", "c"]) 3
      = .error .indexAssertion ∧
    GetFoundersRewardAddressAtIndex (sampleChain 1 ["a", "b", "c"]) (-1)
      = .error .indexAssertion :=
  ⟨(founders_address_at_index (sampleChain 1 ["a", "b", "c"]) 1 (by decide)).1.mpr (by decide),
   (founders_address_at_index (sampleChain 1 ["a", "b", "c"]) 3 (by decide)).2.2.1 (by decide),
   (founders_address_at_index (sampleChain 1 ["a", "b", "c"]) (-1) (by decide)).2.2.1
     (by decide)⟩

/-! ## Network selection and the regtest mutators -/

/-- C9: `Params()` fails whenever the current pointer is null, which is the case from
start-up for as long as no `SelectParams` call has succeeded (whatever calls have failed
meanwhile); a `SelectParams(n)` that succeeds has n among
main, test and regtest, and afterwards `Params()` returns the instance `Params(n)` returns;
a later successful `SelectParams(m)` makes `Params()` return the instance for m. -/
theorem params_follow_selection (sbp : String → Except Failure Unit) (w : World)
    (n m : String)
    (hn : (SelectParams sbp n w).1 = .ok ())
    (hm : (SelectParams sbp m (SelectParams sbp n w).2).1 = .ok ()) :
    (∀ w0 : World, w0.pCurrentParams = none → Params w0 = .error .noCurrentParams) ∧
    (∀ (a b c : CChainParams) (args : String → Nat) (names : List String),
      (∀ o ∈ (selectSequence sbp names (World.atStartup a b c args)).1, o ≠ .ok ()) →
      Params (selectSequence sbp names (World.atStartup a b c args)).2
        = .error .noCurrentParams) ∧
    (n = CBaseChainParams.MAIN ∨ n = CBaseChainParams.TESTNET
      ∨ n = CBaseChainParams.REGTEST) ∧
    (∃ r, ParamsOfChain n = .ok r ∧ Params (SelectParams sbp n w).2 = .ok r) ∧
    (∃ r, ParamsOfChain m = .ok r ∧
      Params (SelectParams sbp m (SelectParams sbp n w).2).2 = .ok r) := by
  have hnull : ∀ w0 : World, w0.pCurrentParams = none →
      Params w0 = .error .noCurrentParams := by
    intro w0 h0
    unfold Params
    rw [h0]
  have hsel : ∀ (w1 : World) (x : String), (SelectParams sbp x w1).1 = .ok () →
      ∃ r, ParamsOfChain x = .ok r ∧ Params (SelectParams sbp x w1).2 = .ok r := by
    intro w1 x hx
    obtain ⟨r, hr, hptr, _, _⟩ := SelectParams_of_ok hx
    refine ⟨r, hr, ?_⟩
    unfold Params
    rw [hptr]
  refine ⟨hnull, ?_, ?_, hsel w n hn, hsel _ m hm⟩
  · intro a b c args names hall
    rw [selectSequence_all_failed sbp names _ hall]
    exact hnull _ rfl
  · obtain ⟨r, hr, _⟩ := SelectParams_of_ok hn
    exact ParamsOfChain_ok_iff.mp ⟨r, hr⟩

/-- C9 at a concrete input, the order of the repository's test: from the state with
nothing selected, `SelectParams("test")` then `SelectParams("regtest")`. -/
theorem params_follow_selection_witness :
    Params sampleWorld = .error .noCurrentParams ∧
    Params (SelectParams sampleSelectBaseParams "test" sampleWorld).2 = .ok .testNetParams ∧
    Params (SelectParams sampleSelectBaseParams "regtest"
      (SelectParams sampleSelectBaseParams "test" sampleWorld).2).2 = .ok .regTestParams := by
  have hmain := params_follow_selection sampleSelectBaseParams sampleWorld "test" "regtest"
    (by rfl) (by rfl)
  refine ⟨hmain.1 sampleWorld rfl, ?_, ?_⟩
  · obtain ⟨r, hr, hp⟩ := hmain.2.2.2.1
    have : ParamsOfChain "test" = .ok .testNetParams := by rfl
    rw [this] at hr
    cases hr
    exact hp
  · obtain ⟨r, hr, hp⟩ := hmain.2.2.2.2
    have : ParamsOfChain "regtest" = .ok .regTestParams := by rfl
    rw [this] at hr
    cases hr
    exact hp

/-- C10: after `UpdateNetworkUpgradeParameters(X, 10)` the RegTest instance reports
upgrade X inactive at height 5 and active at height 10, and the Main and Test instances
(all their fields, the upgrade tables included) and the current selection are as before;
`UpdateFundingStreamParameters`, `UpdateOnetimeLockboxDisbursementParameters` and
`UpdateRegtestPow` leave the Main and Test instances and the selection unchanged too. -/
theorem regtest_mutators_isolated (w : World) (X : Consensus.UpgradeIndex) :
    NetworkUpgradeActive (UpdateNetworkUpgradeParameters X 10 w).regTestParams.consensus 5 X
      = .ok false ∧
    NetworkUpgradeActive (UpdateNetworkUpgradeParameters X 10 w).regTestParams.consensus 10 X
      = .ok true ∧
    (∀ (idx : Consensus.UpgradeIndex) (a : Int),
      (UpdateNetworkUpgradeParameters idx a w).mainParams = w.mainParams ∧
      (UpdateNetworkUpgradeParameters idx a w).testNetParams = w.testNetParams ∧
      (UpdateNetworkUpgradeParameters idx a w).pCurrentParams = w.pCurrentParams) ∧
    (∀ (idx : Consensus.FundingStreamIndex) (fs : Consensus.FundingStream),
      (UpdateFundingStreamParameters idx fs w).mainParams = w.mainParams ∧
      (UpdateFundingStreamParameters idx fs w).testNetParams = w.testNetParams ∧
      (UpdateFundingStreamParameters idx fs w).pCurrentParams = w.pCurrentParams) ∧
    (∀ (idx : Consensus.OnetimeLockboxDisbursementIndex)
        (ld : Consensus.OnetimeLockboxDisbursement),
      (UpdateOnetimeLockboxDisbursementParameters idx ld w).mainParams = w.mainParams ∧
      (UpdateOnetimeLockboxDisbursementParameters idx ld w).testNetParams = w.testNetParams ∧
      (UpdateOnetimeLockboxDisbursementParameters idx ld w).pCurrentParams
        = w.pCurrentParams) ∧
    (∀ (down up : Int) (powLimit : Nat) (noRetargeting : Bool),
      (UpdateRegtestPow down up powLimit noRetargeting w).mainParams = w.mainParams ∧
      (UpdateRegtestPow down up powLimit noRetargeting w).testNetParams = w.testNetParams ∧
      (UpdateRegtestPow down up powLimit noRetargeting w).pCurrentParams
        = w.pCurrentParams) := by
  have hentry : ((UpdateNetworkUpgradeParameters X 10 w).regTestParams.consensus.vUpgrades
      X).nActivationHeight = 10 := by
    simp [UpdateNetworkUpgradeParameters, CRegTestParams.UpdateNetworkUpgradeParameters]
  refine ⟨?_, ?_, ?_, ?_, ?_, ?_⟩
  · rw [NetworkUpgradeActive_of_nonneg _ (by decide), hentry]
    rfl
  · rw [NetworkUpgradeActive_of_nonneg _ (by decide), hentry]
    rfl
  · intro idx a
    exact ⟨rfl, rfl, rfl⟩
  · intro idx fs
    exact ⟨rfl, rfl, rfl⟩
  · intro idx ld
    exact ⟨rfl, rfl, rfl⟩
  · intro down up powLimit noRetargeting
    exact ⟨rfl, rfl, rfl⟩

/-! ## Facts about funding streams and lockbox disbursements -/

theorem mem_allFundingStreams (idx : Consensus.FundingStreamIndex) :
    idx ∈ Consensus.allFundingStreams := by
  cases idx <;> simp [Consensus.allFundingStreams]

theorem mem_allOnetimeLockboxDisbursements (idx : Consensus.OnetimeLockboxDisbursementIndex) :
    idx ∈ Consensus.allOnetimeLockboxDisbursements := by
  cases idx <;> simp [Consensus.allOnetimeLockboxDisbursements]

theorem mem_GetActiveFundingStreams {c : Consensus.Params} {h : Int}
    {fs : Consensus.FundingStream} :
    fs ∈ GetActiveFundingStreams c h ↔
      (∃ idx, c.vFundingStreams idx = some fs) ∧ fs.startHeight ≤ h ∧ h < fs.endHeight := by
  unfold GetActiveFundingStreams
  rw [List.mem_filterMap]
  constructor
  · rintro ⟨idx, _, hf⟩
    cases hstream : c.vFundingStreams idx with
    | none => rw [hstream] at hf; exact absurd hf (by simp)
    | some gs =>
      rw [hstream] at hf
      simp only [] at hf
      split at hf
      · next hin =>
        injection hf with hf
        subst hf
        exact ⟨⟨idx, hstream⟩, hin.1, hin.2⟩
      · exact absurd hf (by simp)
  · rintro ⟨⟨idx, hstream⟩, hlo, hhi⟩
    refine ⟨idx, mem_allFundingStreams idx, ?_⟩
    rw [hstream]
    simp only []
    rw [if_pos ⟨hlo, hhi⟩]

theorem mem_GetLockboxDisbursementsForHeight {c : Consensus.Params} {h : Int}
    {ld : Consensus.OnetimeLockboxDisbursement} :
    ld ∈ GetLockboxDisbursementsForHeight c h ↔
      ∃ idx, c.vOnetimeLockboxDisbursements idx = some ld ∧
        (c.vUpgrades ld.upgrade).nActivationHeight = h := by
  unfold GetLockboxDisbursementsForHeight
  rw [List.mem_filterMap]
  constructor
  · rintro ⟨idx, _, hf⟩
    cases hentry : c.vOnetimeLockboxDisbursements idx with
    | none => rw [hentry] at hf; exact absurd hf (by simp)
    | some md =>
      rw [hentry] at hf
      simp only [] at hf
      split at hf
      · next hin =>
        injection hf with hf
        subst hf
        exact ⟨idx, hentry, hin⟩
      · exact absurd hf (by simp)
  · rintro ⟨idx, hentry, hact⟩
    refine ⟨idx, mem_allOnetimeLockboxDisbursements idx, ?_⟩
    rw [hentry]
    simp only []
    rw [if_pos hact]

theorem main_disbursement_table (k : ChainConstants)
    (idx : Consensus.OnetimeLockboxDisbursementIndex) :
    (CMainParams k).consensus.vOnetimeLockboxDisbursements idx
      = some ⟨.UPGRADE_NU6_1, 7875 * k.COIN, "t3ev37Q2uL1sfTsiJQJiWJoFzQpDhmnUwYo"⟩ := by
  cases idx <;> rfl

theorem test_disbursement_table (k : ChainConstants)
    (idx : Consensus.OnetimeLockboxDisbursementIndex) :
    (CTestNetParams k).consensus.vOnetimeLockboxDisbursements idx
      = some ⟨.UPGRADE_NU6_1, 7875 * k.COIN, "t2RnBRiqrN1nW4ecZs1Fj3WWjNdnSs4kiX8"⟩ := by
  cases idx <;> rfl

theorem sum_amounts_replicate_ten (amount : Int) (upgrade : Consensus.UpgradeIndex)
    (strAddress : String) :
    ((List.replicate 10
        (⟨upgrade, amount, strAddress⟩ : Consensus.OnetimeLockboxDisbursement)).map
      (fun ld => ld.amount)).sum = 10 * amount := by
  simp [List.replicate]
  ring

/-- The period index of an in-range height is non-negative and below the ceiling of
`(end - start) / period`. -/
theorem periodIndex_lt_specRecipientCount {s e P h : Int} (hP : 1 ≤ P) (hlo : s ≤ h)
    (hhi : h < e) :
    0 ≤ (h - s).tdiv P ∧ (h - s).tdiv P < specRecipientCount s e P := by
  have hx : 0 ≤ h - s := by omega
  rw [Int.tdiv_eq_ediv hx (by omega)]
  refine ⟨Int.ediv_nonneg hx (by omega), ?_⟩
  unfold specRecipientCount
  rw [Int.lt_ceil]
  have hPq : (0 : ℚ) < (P : ℚ) := by exact_mod_cast (by omega : (0 : Int) < P)
  rw [lt_div_iff₀ hPq]
  have h1 : (h - s) / P * P ≤ h - s := Int.ediv_mul_le (h - s) (by omega)
  have h2 : (h - s) / P * P < e - s := by omega
  exact_mod_cast h2

/-- No funding period length gives both 51 periods to the range [1, 2796000) and 13
periods to the range [1, 3396000). -/
theorem no_period_fits_test_streams (P : Int) :
    ¬ ((51 : Int) = specRecipientCount 1 2796000 P ∧
       (13 : Int) = specRecipientCount 1 3396000 P) := by
  rintro ⟨h1, h2⟩
  unfold specRecipientCount at h1 h2
  have h1' := Int.ceil_eq_iff.mp h1.symm
  have h2' := Int.ceil_eq_iff.mp h2.symm
  obtain ⟨h1lo, _⟩ := h1'
  obtain ⟨_, h2hi⟩ := h2'
  push_cast at h1lo h2hi
  by_cases hP : 0 < P
  · have hPq : (0 : ℚ) < (P : ℚ) := by exact_mod_cast hP
    rw [lt_div_iff₀ hPq] at h1lo
    rw [div_le_iff₀ hPq] at h2hi
    linarith
  · have hPq : (P : ℚ) ≤ 0 := by exact_mod_cast (by omega : P ≤ 0)
    have : ((2796000 : ℚ) - 1) / (P : ℚ) ≤ 0 :=
      div_nonpos_of_nonneg_of_nonpos (by norm_num) hPq
    linarith

theorem specRecipientCount_empty_range (s P : Int) : specRecipientCount s s P = 0 := by
  unfold specRecipientCount
  simp

/-! ## The networks as constructed -/

/-- C11, the code at the failing input: the `CMainParams` constructor registers
FS_FPF_ZCG_H3 and FS_CCF_H3 with start height 1 (the NU6_1 activation height) and end
height 4406400, so at height 1 two streams are active and two elements are produced; the
`CTestNetParams` constructor registers all seven streams with start height 1 and a later
end height, so at height 1 seven streams are active. -/
theorem funding_streams_active_at_height_one (k : ChainConstants) :
    (CMainParams k).consensus.vFundingStreams .FS_FPF_ZCG_H3
      = some ⟨1, 4406400, List.replicate 36 "t3cFfPt1Bcvgez9ZbMBFWeZsskxTkPzGCow", false⟩ ∧
    (CMainParams k).consensus.vFundingStreams .FS_CCF_H3 = some ⟨1, 4406400, [], true⟩ ∧
    GetActiveFundingStreams (CMainParams k).consensus 1
      = [⟨1, 4406400, List.replicate 36 "t3cFfPt1Bcvgez9ZbMBFWeZsskxTkPzGCow", false⟩,
         ⟨1, 4406400, [], true⟩] ∧
    (GetActiveFundingStreamElements (CMainParams k).consensus 1).length = 2 ∧
    (GetActiveFundingStreams (CTestNetParams k).consensus 1).length = 7 ∧
    (GetActiveFundingStreamElements (CTestNetParams k).consensus 1).length = 7 ∧
    (∀ idx, ∃ fs, (CTestNetParams k).consensus.vFundingStreams idx = some fs ∧
      fs.startHeight ≤ 1 ∧ 1 < fs.endHeight) := by
  refine ⟨rfl, rfl, rfl, ?_, rfl, ?_, ?_⟩
  · simp only [GetActiveFundingStreamElements, List.length_map]
    rfl
  · simp only [GetActiveFundingStreamElements, List.length_map]
    rfl
  · intro idx
    cases idx <;> refine ⟨_, rfl, (le_refl (1 : Int)), ?_⟩ <;>
      first
        | exact (by decide : (1 : Int) < 2796000)
        | exact (by decide : (1 : Int) < 3396000)
        | exact (by decide : (1 : Int) < 4476000)

/-- C12, the code at the failing input: both constructors register ten disbursements
keyed to UPGRADE_NU6_1, whose activation height is 1, so the disbursements for height 1
are those ten entries on the Main network and on the Test network. -/
theorem lockbox_disbursements_at_height_one (k : ChainConstants) :
    ((CMainParams k).consensus.vUpgrades .UPGRADE_NU6_1).nActivationHeight = 1 ∧
    ((CTestNetParams k).consensus.vUpgrades .UPGRADE_NU6_1).nActivationHeight = 1 ∧
    GetLockboxDisbursementsForHeight (CMainParams k).consensus 1
      = List.replicate 10
          ⟨.UPGRADE_NU6_1, 7875 * k.COIN, "t3ev37Q2uL1sfTsiJQJiWJoFzQpDhmnUwYo"⟩ ∧
    GetLockboxDisbursementsForHeight (CTestNetParams k).consensus 1
      = List.replicate 10
          ⟨.UPGRADE_NU6_1, 7875 * k.COIN, "t2RnBRiqrN1nW4ecZs1Fj3WWjNdnSs4kiX8"⟩ ∧
    GetLockboxDisbursementsForHeight (CMainParams k).consensus 1 ≠ [] ∧
    GetLockboxDisbursementsForHeight (CTestNetParams k).consensus 1 ≠ [] := by
  have hmain : GetLockboxDisbursementsForHeight (CMainParams k).consensus 1
      = List.replicate 10
          ⟨.UPGRADE_NU6_1, 7875 * k.COIN, "t3ev37Q2uL1sfTsiJQJiWJoFzQpDhmnUwYo"⟩ := rfl
  have htest : GetLockboxDisbursementsForHeight (CTestNetParams k).consensus 1
      = List.replicate 10
          ⟨.UPGRADE_NU6_1, 7875 * k.COIN, "t2RnBRiqrN1nW4ecZs1Fj3WWjNdnSs4kiX8"⟩ := rfl
  refine ⟨rfl, rfl, hmain, htest, ?_, ?_⟩
  · rw [hmain]
    simp [List.replicate]
  · rw [htest]
    simp [List.replicate]

/-- C13: the RegTest instance as constructed, which is the instance the start-up state
holds before any mutator runs, has no funding stream and no lockbox disbursement
registered; for every height h its active funding streams, its active funding stream
elements and its lockbox disbursements are empty. -/
theorem regtest_registers_nothing (k : ChainConstants) (mapArgs : String → Nat) (h : Int) :
    (startupWorld k mapArgs).regTestParams = CRegTestParams k ∧
    (∀ idx, (CRegTestParams k).consensus.vFundingStreams idx = none) ∧
    (∀ idx, (CRegTestParams k).consensus.vOnetimeLockboxDisbursements idx = none) ∧
    GetActiveFundingStreams (CRegTestParams k).consensus h = [] ∧
    GetActiveFundingStreamElements (CRegTestParams k).consensus h = [] ∧
    GetLockboxDisbursementsForHeight (CRegTestParams k).consensus h = [] ∧
    GetActiveFundingStreams (CRegTestParams k).consensus 1 = [] ∧
    GetActiveFundingStreamElements (CRegTestParams k).consensus 1 = [] ∧
    GetLockboxDisbursementsForHeight (CRegTestParams k).consensus 1 = [] := by
  have hstreams : ∀ x : Int, GetActiveFundingStreams (CRegTestParams k).consensus x = [] := by
    intro x
    rw [List.eq_nil_iff_forall_not_mem]
    intro fs hfs
    obtain ⟨⟨idx, hidx⟩, _⟩ := mem_GetActiveFundingStreams.mp hfs
    exact absurd hidx (by simp [CRegTestParams])
  have helems : ∀ x : Int,
      GetActiveFundingStreamElements (CRegTestParams k).consensus x = [] := by
    intro x
    unfold GetActiveFundingStreamElements
    rw [hstreams x]
    rfl
  have hdisb : ∀ x : Int,
      GetLockboxDisbursementsForHeight (CRegTestParams k).consensus x = [] := by
    intro x
    rw [List.eq_nil_iff_forall_not_mem]
    intro ld hld
    obtain ⟨idx, hidx, _⟩ := mem_GetLockboxDisbursementsForHeight.mp hld
    exact absurd hidx (by simp [CRegTestParams])
  exact ⟨rfl, fun _ => rfl, fun _ => rfl, hstreams h, helems h, hdisb h, hstreams 1,
    helems 1, hdisb 1⟩

/-- C15: on the Main network and on the Test network every one of the ten identifiers
LD_ZIP271_NU6_1_CHUNK_1..10 (and there is no other identifier) holds a disbursement keyed
to UPGRADE_NU6_1 with amount 7875 * COIN and one common destination per network; the ten
amounts sum to 78750 * COIN, which is the equality the constructors assert statically,
for every positive COIN. -/
theorem nu6_1_disbursement_chunks (k : ChainConstants) :
    (∀ idx, (CMainParams k).consensus.vOnetimeLockboxDisbursements idx
      = some ⟨.UPGRADE_NU6_1, 7875 * k.COIN, "t3ev37Q2uL1sfTsiJQJiWJoFzQpDhmnUwYo"⟩) ∧
    (∀ idx, (CTestNetParams k).consensus.vOnetimeLockboxDisbursements idx
      = some ⟨.UPGRADE_NU6_1, 7875 * k.COIN, "t2RnBRiqrN1nW4ecZs1Fj3WWjNdnSs4kiX8"⟩) ∧
    (∀ idx : Consensus.OnetimeLockboxDisbursementIndex, idx ∈ nu6_1_chunks) ∧
    nu6_1_chunks.length = 10 ∧ nu6_1_chunks.Nodup ∧
    ((nu6_1_chunks.filterMap (CMainParams k).consensus.vOnetimeLockboxDisbursements).map
      (fun ld => ld.amount)).sum = 78750 * k.COIN ∧
    ((nu6_1_chunks.filterMap (CTestNetParams k).consensus.vOnetimeLockboxDisbursements).map
      (fun ld => ld.amount)).sum = 78750 * k.COIN ∧
    7875 * k.COIN * (nu6_1_chunks.length : Int) = 78750 * k.COIN ∧
    0 < 7875 * k.COIN := by
  have hmain : nu6_1_chunks.filterMap (CMainParams k).consensus.vOnetimeLockboxDisbursements
      = List.replicate 10
          ⟨.UPGRADE_NU6_1, 7875 * k.COIN, "t3ev37Q2uL1sfTsiJQJiWJoFzQpDhmnUwYo"⟩ := rfl
  have htest : nu6_1_chunks.filterMap (CTestNetParams k).consensus.vOnetimeLockboxDisbursements
      = List.replicate 10
          ⟨.UPGRADE_NU6_1, 7875 * k.COIN, "t2RnBRiqrN1nW4ecZs1Fj3WWjNdnSs4kiX8"⟩ := rfl
  have hpos := k.coin_pos
  refine ⟨main_disbursement_table k, test_disbursement_table k, ?_, rfl, by decide, ?_, ?_,
    ?_, by omega⟩
  · intro idx
    cases idx <;> simp [nu6_1_chunks]
  · rw [hmain, sum_amounts_replicate_ten]
    ring
  · rw [htest, sum_amounts_replicate_ten]
    ring
  · have : (nu6_1_chunks.length : Int) = 10 := rfl
    rw [this]
    ring

/-- C16: the disbursements for a height are exactly the registered entries whose
governing upgrade activates at that height; on the Main network, where the ten ZIP 271
chunks are keyed to UPGRADE_NU6_1 and UPGRADE_NU6_1 activates at height 1, the result is
empty for every height other than 1 and is the ten chunks, summing to 78750 * COIN, for
height 1. -/
theorem disbursements_at_activation_height (k : ChainConstants) :
    (∀ (c : Consensus.Params) (h : Int) (ld : Consensus.OnetimeLockboxDisbursement),
      ld ∈ GetLockboxDisbursementsForHeight c h ↔
        ∃ idx, c.vOnetimeLockboxDisbursements idx = some ld ∧
          (c.vUpgrades ld.upgrade).nActivationHeight = h) ∧
    ((CMainParams k).consensus.vUpgrades .UPGRADE_NU6_1).nActivationHeight = 1 ∧
    (∀ h : Int, h ≠ 1 → GetLockboxDisbursementsForHeight (CMainParams k).consensus h = []) ∧
    GetLockboxDisbursementsForHeight (CMainParams k).consensus 1
      = List.replicate 10
          ⟨.UPGRADE_NU6_1, 7875 * k.COIN, "t3ev37Q2uL1sfTsiJQJiWJoFzQpDhmnUwYo"⟩ ∧
    ((GetLockboxDisbursementsForHeight (CMainParams k).consensus 1).map
      (fun ld => ld.amount)).sum = 78750 * k.COIN := by
  have hone : GetLockboxDisbursementsForHeight (CMainParams k).consensus 1
      = List.replicate 10
          ⟨.UPGRADE_NU6_1, 7875 * k.COIN, "t3ev37Q2uL1sfTsiJQJiWJoFzQpDhmnUwYo"⟩ := rfl
  refine ⟨fun c h ld => mem_GetLockboxDisbursementsForHeight, rfl, ?_, hone, ?_⟩
  · intro h hne
    rw [List.eq_nil_iff_forall_not_mem]
    intro ld hld
    obtain ⟨idx, hidx, hact⟩ := mem_GetLockboxDisbursementsForHeight.mp hld
    rw [main_disbursement_table k idx] at hidx
    injection hidx with hidx
    subst hidx
    exact hne hact.symm
  · rw [hone, sum_amounts_replicate_ten]
    ring

/-- C16 at concrete inputs: with COIN = 100000000 the Main network has no disbursement
at height 2 and at height 0. -/
theorem disbursements_at_activation_height_witness :
    GetLockboxDisbursementsForHeight (CMainParams sampleConstants).consensus 2 = [] ∧
    GetLockboxDisbursementsForHeight (CMainParams sampleConstants).consensus 0 = [] :=
  ⟨(disbursements_at_activation_height sampleConstants).2.2.1 2 (by decide),
   (disbursements_at_activation_height sampleConstants).2.2.1 0 (by decide)⟩

/-- C17, the code at the failing input: the `CMainParams` constructor registers
FS_ZIP214_BP, FS_ZIP214_ZF, FS_ZIP214_MG, FS_FPF_ZCG and FS_DEFERRED with start height 1
and end height 1 (Canopy, NU6 and NU6_1 all activate at height 1), so for these five
streams the test `end_height > start_height` is false and the invariant of §3 fails for
every period length; for the other two Main streams and for all seven Test streams the
test is true. -/
theorem main_funding_streams_empty_range (k : ChainConstants) :
    (CMainParams k).consensus.vFundingStreams .FS_ZIP214_BP
      = some ⟨1, 1, mainBpAddresses, false⟩ ∧
    (CMainParams k).consensus.vFundingStreams .FS_ZIP214_ZF
      = some ⟨1, 1, List.replicate 48 "t3dvVE3SQEi7kqNzwrfNePxZ1d4hUyztBA1", false⟩ ∧
    (CMainParams k).consensus.vFundingStreams .FS_ZIP214_MG
      = some ⟨1, 1, List.replicate 48 "t3XyYW8yBFRuMnfvm5KLGFbEVz25kckZXym", false⟩ ∧
    (CMainParams k).consensus.vFundingStreams .FS_FPF_ZCG
      = some ⟨1, 1, List.replicate 12 "t3cFfPt1Bcvgez9ZbMBFWeZsskxTkPzGCow", false⟩ ∧
    (CMainParams k).consensus.vFundingStreams .FS_DEFERRED = some ⟨1, 1, [], true⟩ ∧
    ([Consensus.FundingStreamIndex.FS_ZIP214_BP, .FS_ZIP214_ZF, .FS_ZIP214_MG, .FS_FPF_ZCG,
        .FS_DEFERRED].map fun idx =>
      ((CMainParams k).consensus.vFundingStreams idx).map fun fs =>
        decide (fs.endHeight > fs.startHeight))
      = [some false, some false, some false, some false, some false] ∧
    (∀ P : Int, ¬ FundingStreamValid P ⟨1, 1, mainBpAddresses, false⟩) ∧
    ([Consensus.FundingStreamIndex.FS_FPF_ZCG_H3, .FS_CCF_H3].map fun idx =>
      ((CMainParams k).consensus.vFundingStreams idx).map fun fs =>
        decide (fs.endHeight > fs.startHeight))
      = [some true, some true] ∧
    (Consensus.allFundingStreams.map fun idx =>
      ((CTestNetParams k).consensus.vFundingStreams idx).map fun fs =>
        decide (fs.endHeight > fs.startHeight))
      = [some true, some true, some true, some true, some true, some true, some true] := by
  refine ⟨rfl, rfl, rfl, rfl, rfl, rfl, ?_, rfl, rfl⟩
  intro P hv
  exact absurd hv.1 (by decide)

/-- C18, the code at the failing input: on the Main network FS_ZIP214_BP, FS_ZIP214_ZF
and FS_ZIP214_MG carry 48 recipients and FS_FPF_ZCG carries 12, while their range from
height 1 to height 1 gives ceil(0 / period_length) = 0 for every period length; on the
Test network FS_ZIP214_BP carries 51 recipients for the range [1, 2796000) and FS_FPF_ZCG
carries 13 for the range [1, 3396000), and no period length makes both counts equal to
the ceiling. -/
theorem funding_stream_recipient_counts (k : ChainConstants) :
    (CMainParams k).consensus.nFundingPeriodLength
      = (k.POST_BLOSSOM_HALVING_INTERVAL k.PRE_BLOSSOM_HALVING_INTERVAL).tdiv 48 ∧
    ([Consensus.FundingStreamIndex.FS_ZIP214_BP, .FS_ZIP214_ZF, .FS_ZIP214_MG,
        .FS_FPF_ZCG].map fun idx =>
      ((CMainParams k).consensus.vFundingStreams idx).map fun fs =>
        (fs.isLockbox, fs.recipients.length, fs.startHeight, fs.endHeight))
      = [some (false, 48, 1, 1), some (false, 48, 1, 1), some (false, 48, 1, 1),
         some (false, 12, 1, 1)] ∧
    (∀ P : Int, specRecipientCount 1 1 P = 0) ∧
    (∀ P : Int, ((48 : Nat) : Int) ≠ specRecipientCount 1 1 P
      ∧ ((12 : Nat) : Int) ≠ specRecipientCount 1 1 P) ∧
    ([Consensus.FundingStreamIndex.FS_ZIP214_BP, .FS_FPF_ZCG].map fun idx =>
      ((CTestNetParams k).consensus.vFundingStreams idx).map fun fs =>
        (fs.isLockbox, fs.recipients.length, fs.startHeight, fs.endHeight))
      = [some (false, 51, 1, 2796000), some (false, 13, 1, 3396000)] ∧
    (∀ P : Int, ¬ (((51 : Nat) : Int) = specRecipientCount 1 2796000 P ∧
                   ((13 : Nat) : Int) = specRecipientCount 1 3396000 P)) := by
  refine ⟨rfl, rfl, specRecipientCount_empty_range 1, ?_, rfl, ?_⟩
  · intro P
    rw [specRecipientCount_empty_range 1 P]
    exact ⟨by decide, by decide⟩
  · intro P
    exact no_period_fits_test_streams P

/-! ## Funding-stream queries -/

/-- C19: for a funding stream on a network with period length at least 1, with end height
above start height and recipient count equal to ceil((end - start) / period_length), and
for every height h with start ≤ h < end, the period index (h - start) / period_length
(truncating) is at least 0 and below the recipient count, so `RecipientAt` returns a
destination: for a stream with external recipients the element of the recipient sequence
at the period index. -/
theorem recipient_index_in_bounds (c : Consensus.Params) (fs : Consensus.FundingStream)
    (h : Int) (hP : 1 ≤ c.nFundingPeriodLength) (hrange : fs.endHeight > fs.startHeight)
    (hcount : (fs.recipients.length : Int)
      = specRecipientCount fs.startHeight fs.endHeight c.nFundingPeriodLength)
    (hlo : fs.startHeight ≤ h) (hhi : h < fs.endHeight) :
    0 ≤ FundingPeriodIndex c fs h ∧
    FundingPeriodIndex c fs h < (fs.recipients.length : Int) ∧
    (∃ dest, RecipientAt c fs h = .ok dest) ∧
    (fs.isLockbox = false →
      ∃ a, fs.recipients[(FundingPeriodIndex c fs h).toNat]? = some a ∧
        RecipientAt c fs h = .ok (.address a)) := by
  have hlen : 0 < fs.endHeight - fs.startHeight := by omega
  have hidx := periodIndex_lt_specRecipientCount hP hlo hhi
  rw [← hcount] at hidx
  have hnat : (FundingPeriodIndex c fs h).toNat < fs.recipients.length := by
    unfold FundingPeriodIndex
    omega
  have hext : fs.isLockbox = false →
      ∃ a, fs.recipients[(FundingPeriodIndex c fs h).toNat]? = some a ∧
        RecipientAt c fs h = .ok (.address a) := by
    intro hbox
    refine ⟨fs.recipients[(FundingPeriodIndex c fs h).toNat],
      List.getElem?_eq_getElem hnat, ?_⟩
    unfold RecipientAt
    rw [if_neg (by omega), hbox]
    simp only [Bool.false_eq_true, if_false]
    rw [if_neg (by unfold FundingPeriodIndex; omega), List.getElem?_eq_getElem hnat]
  refine ⟨hidx.1, hidx.2, ?_, hext⟩
  cases hbox : fs.isLockbox with
  | false =>
    obtain ⟨a, _, ha⟩ := hext hbox
    exact ⟨_, ha⟩
  | true =>
    refine ⟨.lockbox, ?_⟩
    unfold RecipientAt
    rw [if_neg (by omega), hbox]
    rfl

/-- C19 at the scenario of the specification: start 0, end 96, period length 48,
recipients A and B: the period index of height 50 is 1 and the recipient is B. -/
theorem recipient_index_in_bounds_witness :
    FundingPeriodIndex scenarioChain.consensus scenarioStream 50 = 1 ∧
    FundingPeriodIndex scenarioChain.consensus scenarioStream 50
      < (scenarioStream.recipients.length : Int) ∧
    RecipientAt scenarioChain.consensus scenarioStream 50 = .ok (.address "B") := by
  have hcount : (scenarioStream.recipients.length : Int)
      = specRecipientCount scenarioStream.startHeight scenarioStream.endHeight
          scenarioChain.consensus.nFundingPeriodLength := by
    have h1 : scenarioChain.consensus.nFundingPeriodLength = 48 := rfl
    have h2 : scenarioStream.startHeight = 0 := rfl
    have h3 : scenarioStream.endHeight = 96 := rfl
    have h4 : scenarioStream.recipients.length = 2 := rfl
    rw [h1, h2, h3, h4]
    unfold specRecipientCount
    norm_num
  have hmain := recipient_index_in_bounds scenarioChain.consensus scenarioStream 50
    (by decide) (by decide) hcount (by decide) (by decide)
  refine ⟨rfl, hmain.2.1, ?_⟩
  obtain ⟨a, ha, hres⟩ := hmain.2.2.2 rfl
  have hB : scenarioStream.recipients[(FundingPeriodIndex scenarioChain.consensus
      scenarioStream 50).toNat]? = some "B" := rfl
  rw [hB] at ha
  injection ha with ha
  rw [hres, ← ha]

/-- C20: a stream is among the active streams of a height h exactly when it is
registered and start ≤ h < end, start inclusive and end exclusive; in the scenario of the
specification (start 0, end 96, period length 48, recipients A and B) the stream is
active at height 50 and not active at height 96. -/
theorem active_streams_iff (c : Consensus.Params) (h : Int) (fs : Consensus.FundingStream) :
    (fs ∈ GetActiveFundingStreams c h ↔
      (∃ idx, c.vFundingStreams idx = some fs) ∧ fs.startHeight ≤ h ∧ h < fs.endHeight) ∧
    (∃ idx, scenarioChain.consensus.vFundingStreams idx = some scenarioStream) ∧
    scenarioStream ∈ GetActiveFundingStreams scenarioChain.consensus 50 ∧
    scenarioStream ∉ GetActiveFundingStreams scenarioChain.consensus 96 := by
  have hreg : ∃ idx, scenarioChain.consensus.vFundingStreams idx = some scenarioStream :=
    ⟨.FS_ZIP214_BP, rfl⟩
  refine ⟨mem_GetActiveFundingStreams, hreg, ?_, ?_⟩
  · exact mem_GetActiveFundingStreams.mpr ⟨hreg, by decide, by decide⟩
  · intro hmem
    have := (mem_GetActiveFundingStreams.mp hmem).2.2
    exact absurd this (by decide)

/-! ## Facts about the upgrade tables and the active upgrade -/

/-- The three constructors write the same activation heights; their tables differ in
the protocol versions only. -/
theorem network_activation_heights (k : ChainConstants) (c : Consensus.Params)
    (hc : c = (CMainParams k).consensus ∨ c = (CTestNetParams k).consensus
      ∨ c = (CRegTestParams k).consensus) (idx : Consensus.UpgradeIndex) :
    (c.vUpgrades idx).nActivationHeight = (mainUpgrades idx).nActivationHeight := by
  rcases hc with h | h | h <;> subst h <;> cases idx <;> rfl

theorem mainUpgrades_heights_ordered (i j : Consensus.UpgradeIndex) :
    i.toNat ≤ j.toNat →
    (mainUpgrades i).nActivationHeight ≠ Consensus.NetworkUpgrade.NO_ACTIVATION_HEIGHT →
    (mainUpgrades j).nActivationHeight ≠ Consensus.NetworkUpgrade.NO_ACTIVATION_HEIGHT →
    (mainUpgrades i).nActivationHeight ≤ (mainUpgrades j).nActivationHeight := by
  cases i <;> cases j <;> decide

theorem ActiveUpgrade_at_zero {c : Consensus.Params}
    (hheights : ∀ idx,
      (c.vUpgrades idx).nActivationHeight = (mainUpgrades idx).nActivationHeight) :
    ActiveUpgrade c 0 = .ok .BASE_SPROUT := by
  simp [ActiveUpgrade, NetworkUpgradeActive, hheights, mainUpgrades, Consensus.allUpgrades,
    Consensus.NetworkUpgrade.NO_ACTIVATION_HEIGHT, Consensus.NetworkUpgrade.ALWAYS_ACTIVE]

theorem ActiveUpgrade_of_pos {c : Consensus.Params}
    (hheights : ∀ idx,
      (c.vUpgrades idx).nActivationHeight = (mainUpgrades idx).nActivationHeight)
    {h : Int} (h1 : 1 ≤ h) : ActiveUpgrade c h = .ok .UPGRADE_NU6_1 := by
  have hneg : ¬ h < 0 := by omega
  simp [ActiveUpgrade, NetworkUpgradeActive, hheights, mainUpgrades, Consensus.allUpgrades,
    Consensus.NetworkUpgrade.NO_ACTIVATION_HEIGHT, hneg, h1]

/-! ## Facts about the founders height substitution -/

theorem foundersAdjustedHeight_of_nonneg (d : ConsensusDecls) {c : Consensus.Params}
    {h : Int} (h0 : 0 ≤ h)
    (hA : 0 ≤ (c.vUpgrades .UPGRADE_BLOSSOM).nActivationHeight) :
    foundersAdjustedHeight d c h
      = .ok (if (c.vUpgrades .UPGRADE_BLOSSOM).nActivationHeight ≤ h then
              blossomAdjustedHeight (c.vUpgrades .UPGRADE_BLOSSOM).nActivationHeight
                d.BLOSSOM_POW_TARGET_SPACING_RATIO h
            else h) := by
  have hno : (c.vUpgrades .UPGRADE_BLOSSOM).nActivationHeight
      ≠ Consensus.NetworkUpgrade.NO_ACTIVATION_HEIGHT := by
    have : Consensus.NetworkUpgrade.NO_ACTIVATION_HEIGHT = -1 := rfl
    omega
  by_cases hle : (c.vUpgrades .UPGRADE_BLOSSOM).nActivationHeight ≤ h
  · rw [if_pos hle]
    exact foundersAdjustedHeight_of_active d (NetworkUpgradeActive_true_iff.mpr ⟨h0, hno, hle⟩)
  · rw [if_neg hle]
    apply foundersAdjustedHeight_of_inactive
    rw [NetworkUpgradeActive_of_nonneg _ h0]
    have hfalse : ¬ ((c.vUpgrades .UPGRADE_BLOSSOM).nActivationHeight
          ≠ Consensus.NetworkUpgrade.NO_ACTIVATION_HEIGHT
        ∧ (c.vUpgrades .UPGRADE_BLOSSOM).nActivationHeight ≤ h) := fun hb => hle hb.2
    simp only [decide_eq_false hfalse]

theorem nonneg_of_foundersAdjustedHeight_ok {d : ConsensusDecls} {c : Consensus.Params}
    {h h' : Int} (hadj : foundersAdjustedHeight d c h = .ok h') : 0 ≤ h := by
  by_contra hneg
  rw [foundersAdjustedHeight_neg d (by omega : h < 0)] at hadj
  exact absurd hadj (by simp)

theorem blossomAdjustedHeight_mono {A R h1 h2 : Int} (hR : 1 ≤ R) (h1A : A ≤ h1)
    (hle : h1 ≤ h2) : blossomAdjustedHeight A R h1 ≤ blossomAdjustedHeight A R h2 := by
  rw [blossomAdjustedHeight_eq_ediv hR h1A, blossomAdjustedHeight_eq_ediv hR (by omega)]
  have : (h1 - A) / R ≤ (h2 - A) / R := Int.ediv_le_ediv (by omega) (by omega)
  omega

theorem addressIndex_mono {h1 h2 max : Int} (interval : Nat) (hpos : 0 < h1) (hle : h1 ≤ h2)
    (h2max : h2 ≤ max) (hmax : max ≤ INT_MAX) :
    addressIndex h1 interval ≤ addressIndex h2 interval := by
  unfold addressIndex
  rw [toSizeT_of_nonneg (by omega) (by omega), toSizeT_of_nonneg (by omega) (by omega)]
  exact Nat.div_le_div_right (by omega)

theorem foundersAddressLookup_in_range_ne {addrs : List String} {max h : Int}
    (hin : 0 < h ∧ h ≤ max) : foundersAddressLookup addrs max h ≠ .error .rangeViolation := by
  unfold foundersAddressLookup
  rw [if_pos hin]
  split
  · simp
  · simp only []
    split
    · simp
    · split <;> simp

/-! ## Upgrade registry -/

/-- C21: on each of Main, Test and RegTest as constructed, for any two upgrades that
have a defined activation height, the one earlier in definition order activates at or
before the later one; the defined heights in definition order are 0 for BASE_SPROUT and 1
for OVERWINTER, SAPLING, BLOSSOM, HEARTWOOD, CANOPY, NU5, NU6 and NU6_1, and TESTDUMMY
and ZFUTURE are the two upgrades without one. -/
theorem activation_heights_non_decreasing (k : ChainConstants) (c : Consensus.Params)
    (hc : c = (CMainParams k).consensus ∨ c = (CTestNetParams k).consensus
      ∨ c = (CRegTestParams k).consensus)
    (i j : Consensus.UpgradeIndex) (hij : i.toNat ≤ j.toNat)
    (hi : hasActivationHeight c.vUpgrades i = true)
    (hj : hasActivationHeight c.vUpgrades j = true) :
    (c.vUpgrades i).nActivationHeight ≤ (c.vUpgrades j).nActivationHeight ∧
    definedActivationHeights c.vUpgrades = [0, 1, 1, 1, 1, 1, 1, 1, 1] ∧
    (definedActivationHeights c.vUpgrades).Pairwise (fun a b => a ≤ b) ∧
    Consensus.allUpgrades.filter (fun idx => !hasActivationHeight c.vUpgrades idx)
      = [.UPGRADE_TESTDUMMY, .UPGRADE_ZFUTURE] ∧
    Consensus.allUpgrades.map Consensus.UpgradeIndex.toNat = List.range 11 := by
  have hheights := network_activation_heights k c hc
  have hlist : definedActivationHeights c.vUpgrades = [0, 1, 1, 1, 1, 1, 1, 1, 1] := by
    rcases hc with h | h | h <;> subst h <;> rfl
  have hnone : Consensus.allUpgrades.filter (fun idx => !hasActivationHeight c.vUpgrades idx)
      = [.UPGRADE_TESTDUMMY, .UPGRADE_ZFUTURE] := by
    rcases hc with h | h | h <;> subst h <;> rfl
  refine ⟨?_, hlist, ?_, hnone, by decide⟩
  · unfold hasActivationHeight at hi hj
    rw [hheights] at hi hj
    rw [hheights i, hheights j]
    exact mainUpgrades_heights_ordered i j hij (of_decide_eq_true hi) (of_decide_eq_true hj)
  · rw [hlist]
    decide

/-- C21 at a concrete input: on the Main network with the sample constants, BASE_SPROUT
(height 0) and UPGRADE_NU6_1 (height 1). -/
theorem activation_heights_non_decreasing_witness :
    ((CMainParams sampleConstants).consensus.vUpgrades .BASE_SPROUT).nActivationHeight
      ≤ ((CMainParams sampleConstants).consensus.vUpgrades .UPGRADE_NU6_1).nActivationHeight :=
  (activation_heights_non_decreasing sampleConstants (CMainParams sampleConstants).consensus
    (Or.inl rfl) .BASE_SPROUT .UPGRADE_NU6_1 (by decide) (by rfl) (by rfl)).1

/-- C22: on the upgrade tables of Main, Test and RegTest, the active upgrade at height 0
is BASE_SPROUT and at every height h ≥ 1 it is UPGRADE_NU6_1, and for all heights
0 ≤ H1 < H2 the active upgrade at H1 is at or before the active upgrade at H2 in
definition order. -/
theorem active_upgrade_monotone (k : ChainConstants) (c : Consensus.Params)
    (hc : c = (CMainParams k).consensus ∨ c = (CTestNetParams k).consensus
      ∨ c = (CRegTestParams k).consensus)
    (H1 H2 : Int) (h0 : 0 ≤ H1) (hlt : H1 < H2) :
    ActiveUpgrade c 0 = .ok .BASE_SPROUT ∧
    (∀ h : Int, 1 ≤ h → ActiveUpgrade c h = .ok .UPGRADE_NU6_1) ∧
    ∃ u1 u2, ActiveUpgrade c H1 = .ok u1 ∧ ActiveUpgrade c H2 = .ok u2 ∧
      u1.toNat ≤ u2.toNat := by
  have hheights := network_activation_heights k c hc
  have hzero := ActiveUpgrade_at_zero hheights
  have hpos : ∀ h : Int, 1 ≤ h → ActiveUpgrade c h = .ok .UPGRADE_NU6_1 :=
    fun h h1 => ActiveUpgrade_of_pos hheights h1
  refine ⟨hzero, hpos, ?_⟩
  by_cases hH1 : H1 = 0
  · subst hH1
    exact ⟨_, _, hzero, hpos H2 (by omega), by decide⟩
  · exact ⟨_, _, hpos H1 (by omega), hpos H2 (by omega), le_refl _⟩

/-- C22 at a concrete input: the Main table with the sample constants, heights 0 and 1:
the active upgrade goes from BASE_SPROUT to UPGRADE_NU6_1. -/
theorem active_upgrade_monotone_witness :
    ActiveUpgrade (CMainParams sampleConstants).consensus 0 = .ok .BASE_SPROUT ∧
    ActiveUpgrade (CMainParams sampleConstants).consensus 1 = .ok .UPGRADE_NU6_1 ∧
    Consensus.UpgradeIndex.BASE_SPROUT.toNat ≤ Consensus.UpgradeIndex.UPGRADE_NU6_1.toNat := by
  have hmain := active_upgrade_monotone sampleConstants (CMainParams sampleConstants).consensus
    (Or.inl rfl) 0 1 (by decide) (by decide)
  exact ⟨hmain.1, hmain.2.1 1 (by decide), by decide⟩

/-! ## Founders-reward resolver: order and range -/

/-- C23: for a non-empty (representable) address list, a last-reward height max (an
`int`), a Blossom activation height A ≥ 0, any spacing ratio R ≥ 1 and heights h1 ≤ h2
whose substituted heights both pass the range assertion, the substituted heights are in
order, the index selected for h1 is at most the index selected for h2, and the two calls
return the addresses at those indices; this covers h1 before and h2 at or after the
activation height. -/
theorem founders_index_monotone (d : ConsensusDecls) (p : CChainParams)
    (h1 h2 h1' h2' : Int)
    (hn : 1 ≤ p.vFoundersRewardAddress.length)
    (hvec : p.vFoundersRewardAddress.length ≤ VECTOR_MAX_SIZE)
    (hmax : d.GetLastFoundersRewardBlockHeight p.consensus 0 ≤ INT_MAX)
    (hA : 0 ≤ (p.consensus.vUpgrades .UPGRADE_BLOSSOM).nActivationHeight)
    (hle : h1 ≤ h2)
    (hadj1 : foundersAdjustedHeight d p.consensus h1 = .ok h1')
    (hadj2 : foundersAdjustedHeight d p.consensus h2 = .ok h2')
    (hin1 : 0 < h1' ∧ h1' ≤ d.GetLastFoundersRewardBlockHeight p.consensus 0)
    (hin2 : 0 < h2' ∧ h2' ≤ d.GetLastFoundersRewardBlockHeight p.consensus 0) :
    h1' ≤ h2' ∧
    addressIndex h1' (addressChangeInterval (d.GetLastFoundersRewardBlockHeight p.consensus 0)
        p.vFoundersRewardAddress.length)
      ≤ addressIndex h2' (addressChangeInterval
          (d.GetLastFoundersRewardBlockHeight p.consensus 0)
          p.vFoundersRewardAddress.length) ∧
    ∃ a1 a2,
      p.vFoundersRewardAddress[addressIndex h1' (addressChangeInterval
          (d.GetLastFoundersRewardBlockHeight p.consensus 0)
          p.vFoundersRewardAddress.length)]? = some a1 ∧
      p.vFoundersRewardAddress[addressIndex h2' (addressChangeInterval
          (d.GetLastFoundersRewardBlockHeight p.consensus 0)
          p.vFoundersRewardAddress.length)]? = some a2 ∧
      GetFoundersRewardAddressAtHeight d p h1 = .ok a1 ∧
      GetFoundersRewardAddressAtHeight d p h2 = .ok a2 := by
  have hR := d.ratio_pos
  have h10 := nonneg_of_foundersAdjustedHeight_ok hadj1
  have h20 := nonneg_of_foundersAdjustedHeight_ok hadj2
  rw [foundersAdjustedHeight_of_nonneg d h10 hA] at hadj1
  rw [foundersAdjustedHeight_of_nonneg d h20 hA] at hadj2
  injection hadj1 with hadj1
  injection hadj2 with hadj2
  have hord : h1' ≤ h2' := by
    by_cases hA1 : (p.consensus.vUpgrades .UPGRADE_BLOSSOM).nActivationHeight ≤ h1
    · rw [if_pos hA1] at hadj1
      rw [if_pos (by omega)] at hadj2
      rw [← hadj1, ← hadj2]
      exact blossomAdjustedHeight_mono hR hA1 hle
    · rw [if_neg hA1] at hadj1
      by_cases hA2 : (p.consensus.vUpgrades .UPGRADE_BLOSSOM).nActivationHeight ≤ h2
      · rw [if_pos hA2] at hadj2
        have hb := (blossomAdjustedHeight_bounds hR hA2).1
        omega
      · rw [if_neg hA2] at hadj2
        omega
  obtain ⟨a1, hget1, hlook1⟩ := foundersAddressLookup_ok hn hvec hmax hin1.1 hin1.2
  obtain ⟨a2, hget2, hlook2⟩ := foundersAddressLookup_ok hn hvec hmax hin2.1 hin2.2
  have hres : ∀ (h h' : Int), foundersAdjustedHeight d p.consensus h = .ok h' →
      GetFoundersRewardAddressAtHeight d p h
        = foundersAddressLookup p.vFoundersRewardAddress
            (d.GetLastFoundersRewardBlockHeight p.consensus 0) h' := by
    intro h h' hadj
    unfold GetFoundersRewardAddressAtHeight
    simp only [hadj]
  have hadj1' : foundersAdjustedHeight d p.consensus h1 = .ok h1' := by
    rw [foundersAdjustedHeight_of_nonneg d h10 hA, hadj1]
  have hadj2' : foundersAdjustedHeight d p.consensus h2 = .ok h2' := by
    rw [foundersAdjustedHeight_of_nonneg d h20 hA, hadj2]
  refine ⟨hord, addressIndex_mono _ hin1.1 hord hin2.2 hmax, a1, a2, hget1, hget2, ?_, ?_⟩
  · rw [hres h1 h1' hadj1', hlook1]
  · rw [hres h2 h2' hadj2', hlook2]

/-- C23 at a concrete input: activation height 5, ratio 2, three addresses, last-reward
height 10; height 4 lies before the activation height and height 9 after it; the
substituted heights are 4 and 7 and the selected indices 1 and 1. -/
theorem founders_index_monotone_witness :
    (4 : Int) ≤ 7 ∧
    addressIndex 4 (addressChangeInterval 10 3) ≤ addressIndex 7 (addressChangeInterval 10 3) ∧
    GetFoundersRewardAddressAtHeight (sampleDecls 10 2 (by decide))
      (sampleChain 5 ["a", "b", "c"]) 4 = .ok "b" ∧
    GetFoundersRewardAddressAtHeight (sampleDecls 10 2 (by decide))
      (sampleChain 5 ["a", "b", "c"]) 9 = .ok "b" := by
  have hmain := founders_index_monotone (sampleDecls 10 2 (by decide))
    (sampleChain 5 ["a", "b", "c"]) 4 9 4 7 (by decide) (by decide) (by decide) (by decide)
    (by decide) (by rfl) (by rfl) (by decide) (by decide)
  exact ⟨hmain.1, hmain.2.1, by rfl, by rfl⟩

/-- C24: when the Blossom activation height is at least 1 (for any spacing ratio R ≥ 1),
every height h with 0 < h ≤ max has a substituted height h' with 0 < h' ≤ h ≤ max, so the
range assertion holds for it and the call does not end in a range violation. -/
theorem founders_remap_stays_in_range (d : ConsensusDecls) (p : CChainParams) (h : Int)
    (hA : 1 ≤ (p.consensus.vUpgrades .UPGRADE_BLOSSOM).nActivationHeight)
    (hpos : 0 < h) (hle : h ≤ d.GetLastFoundersRewardBlockHeight p.consensus 0) :
    ∃ h', foundersAdjustedHeight d p.consensus h = .ok h' ∧
      0 < h' ∧ h' ≤ h ∧ h ≤ d.GetLastFoundersRewardBlockHeight p.consensus 0 ∧
      (0 < h' ∧ h' ≤ d.GetLastFoundersRewardBlockHeight p.consensus 0) ∧
      GetFoundersRewardAddressAtHeight d p h ≠ .error .rangeViolation := by
  have hR := d.ratio_pos
  have hadj := foundersAdjustedHeight_of_nonneg d (by omega : 0 ≤ h)
    (by omega : 0 ≤ (p.consensus.vUpgrades .UPGRADE_BLOSSOM).nActivationHeight)
  have hb : 0 < (if (p.consensus.vUpgrades .UPGRADE_BLOSSOM).nActivationHeight ≤ h then
        blossomAdjustedHeight (p.consensus.vUpgrades .UPGRADE_BLOSSOM).nActivationHeight
          d.BLOSSOM_POW_TARGET_SPACING_RATIO h
      else h) ∧
      (if (p.consensus.vUpgrades .UPGRADE_BLOSSOM).nActivationHeight ≤ h then
        blossomAdjustedHeight (p.consensus.vUpgrades .UPGRADE_BLOSSOM).nActivationHeight
          d.BLOSSOM_POW_TARGET_SPACING_RATIO h
      else h) ≤ h := by
    split
    · next hact =>
      have := blossomAdjustedHeight_bounds hR hact
      omega
    · omega
  refine ⟨_, hadj, hb.1, hb.2, hle, ⟨hb.1, by omega⟩, ?_⟩
  unfold GetFoundersRewardAddressAtHeight
  simp only [hadj]
  exact foundersAddressLookup_in_range_ne ⟨hb.1, by omega⟩

/-- C24 at a concrete input: activation height 1, ratio 2, last-reward height 10,
height 7: the substituted height is 4. -/
theorem founders_remap_stays_in_range_witness :
    ∃ h', foundersAdjustedHeight (sampleDecls 10 2 (by decide))
        (sampleChain 1 ["a"]).consensus 7 = .ok h' ∧
      0 < h' ∧ h' ≤ 7 ∧
      (7 : Int) ≤ (sampleDecls 10 2 (by decide)).GetLastFoundersRewardBlockHeight
        (sampleChain 1 ["a"]).consensus 0 ∧
      (0 < h' ∧ h' ≤ (sampleDecls 10 2 (by decide)).GetLastFoundersRewardBlockHeight
        (sampleChain 1 ["a"]).consensus 0) ∧
      GetFoundersRewardAddressAtHeight (sampleDecls 10 2 (by decide)) (sampleChain 1 ["a"]) 7
        ≠ .error .rangeViolation :=
  founders_remap_stays_in_range (sampleDecls 10 2 (by decide)) (sampleChain 1 ["a"]) 7
    (by decide) (by decide) (by decide)

/-! ## Network lookup by name and selection -/

/-- C25: `Params(name)` returns the Main instance exactly when the name is the
main-network name, the Test instance exactly when it is the testnet name, the RegTest
instance exactly when it is the regtest name, and raises the unknown-chain runtime error
exactly when the name is none of the three; so it returns no instance for an unknown name
and does not raise for a known one. -/
theorem params_of_chain_by_name (chain : String) :
    (ParamsOfChain chain = .ok .mainParams ↔ chain = CBaseChainParams.MAIN) ∧
    (ParamsOfChain chain = .ok .testNetParams ↔ chain = CBaseChainParams.TESTNET) ∧
    (ParamsOfChain chain = .ok .regTestParams ↔ chain = CBaseChainParams.REGTEST) ∧
    (ParamsOfChain chain = .error .unknownChain ↔
      (chain ≠ CBaseChainParams.MAIN ∧ chain ≠ CBaseChainParams.TESTNET
        ∧ chain ≠ CBaseChainParams.REGTEST)) ∧
    ((∃ r, ParamsOfChain chain = .ok r) ↔
      (chain = CBaseChainParams.MAIN ∨ chain = CBaseChainParams.TESTNET
        ∨ chain = CBaseChainParams.REGTEST)) ∧
    ((∃ r, ParamsOfChain chain = .ok r) ∨ ParamsOfChain chain = .error .unknownChain) := by
  have hmt : CBaseChainParams.MAIN ≠ CBaseChainParams.TESTNET := by decide
  have hmr : CBaseChainParams.MAIN ≠ CBaseChainParams.REGTEST := by decide
  have htr : CBaseChainParams.TESTNET ≠ CBaseChainParams.REGTEST := by decide
  by_cases h1 : chain = CBaseChainParams.MAIN
  · subst h1
    have hres : ParamsOfChain CBaseChainParams.MAIN = .ok .mainParams := rfl
    rw [hres]
    simp [hmt, hmr]
  · by_cases h2 : chain = CBaseChainParams.TESTNET
    · subst h2
      have hres : ParamsOfChain CBaseChainParams.TESTNET = .ok .testNetParams := rfl
      rw [hres]
      simp [hmt.symm, htr]
    · by_cases h3 : chain = CBaseChainParams.REGTEST
      · subst h3
        have hres : ParamsOfChain CBaseChainParams.REGTEST = .ok .regTestParams := rfl
        rw [hres]
        simp [hmr.symm, htr.symm]
      · have hres : ParamsOfChain chain = .error .unknownChain := by
          unfold ParamsOfChain
          rw [if_neg h1, if_neg h2, if_neg h3]
        rw [hres]
        simp [h1, h2, h3]

/-- C25 at concrete inputs: the three known names and one unknown name. -/
theorem params_of_chain_by_name_witness :
    ParamsOfChain "main" = .ok .mainParams ∧
    ParamsOfChain "test" = .ok .testNetParams ∧
    ParamsOfChain "regtest" = .ok .regTestParams ∧
    ParamsOfChain "mainnet" = .error .unknownChain :=
  ⟨(params_of_chain_by_name "main").1.mpr rfl,
   (params_of_chain_by_name "test").2.1.mpr rfl,
   (params_of_chain_by_name "regtest").2.2.1.mpr rfl,
   (params_of_chain_by_name "mainnet").2.2.2.1.mpr (by decide)⟩

/-- C26: when `SelectParams` is called with a name that is not one of the three known
networks, the call fails and leaves the state, and with it the current pointer, exactly
as it was: still null if nothing was selected, still the previously selected instance
otherwise; this holds whatever `SelectBaseParams` does with the name. -/
theorem select_params_unknown_name (sbp : String → Except Failure Unit) (w : World)
    (network : String)
    (hunknown : network ≠ CBaseChainParams.MAIN ∧ network ≠ CBaseChainParams.TESTNET
      ∧ network ≠ CBaseChainParams.REGTEST) :
    (∃ e, (SelectParams sbp network w).1 = .error e) ∧
    (SelectParams sbp network w).2 = w ∧
    (SelectParams sbp network w).2.pCurrentParams = w.pCurrentParams ∧
    (w.pCurrentParams = none → Params (SelectParams sbp network w).2 = .error .noCurrentParams) ∧
    (∀ r, w.pCurrentParams = some r → Params (SelectParams sbp network w).2 = .ok r) := by
  have hfail : ∃ e, (SelectParams sbp network w).1 = .error e := by
    have hp : ParamsOfChain network = .error .unknownChain := by
      unfold ParamsOfChain
      rw [if_neg hunknown.1, if_neg hunknown.2.1, if_neg hunknown.2.2]
    unfold SelectParams
    cases hb : sbp network with
    | error e => exact ⟨e, rfl⟩
    | ok u => exact ⟨.unknownChain, by simp only [hp]⟩
  have hsame : (SelectParams sbp network w).2 = w := by
    apply SelectParams_of_not_ok
    obtain ⟨e, he⟩ := hfail
    rw [he]
    simp
  refine ⟨hfail, hsame, by rw [hsame], ?_, ?_⟩
  · intro hnull
    rw [hsame]
    unfold Params
    rw [hnull]
  · intro r hr
    rw [hsame]
    unfold Params
    rw [hr]

/-- C26 at concrete inputs: the name "mainnet" is unknown; called at start-up the pointer
stays null, called after `SelectParams("test")` the Test instance stays selected. -/
theorem select_params_unknown_name_witness :
    Params (SelectParams sampleSelectBaseParams "mainnet" sampleWorld).2
      = .error .noCurrentParams ∧
    Params (SelectParams sampleSelectBaseParams "mainnet"
      (SelectParams sampleSelectBaseParams "test" sampleWorld).2).2 = .ok .testNetParams :=
  ⟨(select_params_unknown_name sampleSelectBaseParams sampleWorld "mainnet"
      (by decide)).2.2.2.1 rfl,
   (select_params_unknown_name sampleSelectBaseParams
      (SelectParams sampleSelectBaseParams "test" sampleWorld).2 "mainnet"
      (by decide)).2.2.2.2 .testNetParams rfl⟩

/-! ## Proof-of-work limit -/

/-- C27: the asserted condition `maxUint / powLimit >= nPowAveragingWindow`, with
`maxUint = 2^256 - 1` and the window 17, holds for the limit of each network as
constructed: the quotient is 8192 on Main, 32 on Test and exactly 17 on RegTest, where
17 times the limit is `maxUint`; so every limit strictly larger than the RegTest one
gives a quotient below 17 and fails the condition. -/
theorem pow_limit_assertion (k : ChainConstants) :
    maxUint = 2 ^ 256 - 1 ∧
    (CMainParams k).consensus.nPowAveragingWindow = 17 ∧
    (CTestNetParams k).consensus.nPowAveragingWindow = 17 ∧
    (CRegTestParams k).consensus.nPowAveragingWindow = 17 ∧
    (CMainParams k).consensus.powLimit = 2 ^ 243 - 1 ∧
    (CTestNetParams k).consensus.powLimit = 2 ^ 251 - 1 ∧
    powLimitAssertion (CMainParams k).consensus = true ∧
    powLimitAssertion (CTestNetParams k).consensus = true ∧
    powLimitAssertion (CRegTestParams k).consensus = true ∧
    maxUint / (CMainParams k).consensus.powLimit = 8192 ∧
    maxUint / (CTestNetParams k).consensus.powLimit = 32 ∧
    maxUint / (CRegTestParams k).consensus.powLimit = 17 ∧
    (CRegTestParams k).consensus.powLimit * 17 = maxUint ∧
    (∀ limit : Nat, (CRegTestParams k).consensus.powLimit < limit →
      maxUint / limit < 17 ∧
      powLimitAssertion { (CRegTestParams k).consensus with powLimit := limit } = false) := by
  have hm : (CMainParams k).consensus.powLimit
      = 0x0007ffffffffffffffffffffffffffffffffffffffffffffffffffffffffffff := rfl
  have ht : (CTestNetParams k).consensus.powLimit
      = 0x07ffffffffffffffffffffffffffffffffffffffffffffffffffffffffffffff := rfl
  have hr : (CRegTestParams k).consensus.powLimit
      = 0x0f0f0f0f0f0f0f0f0f0f0f0f0f0f0f0f0f0f0f0f0f0f0f0f0f0f0f0f0f0f0f0f := rfl
  have hwm : (CMainParams k).consensus.nPowAveragingWindow = 17 := rfl
  have hwt : (CTestNetParams k).consensus.nPowAveragingWindow = 17 := rfl
  have hwr : (CRegTestParams k).consensus.nPowAveragingWindow = 17 := rfl
  have hprod : (0x0f0f0f0f0f0f0f0f0f0f0f0f0f0f0f0f0f0f0f0f0f0f0f0f0f0f0f0f0f0f0f0f : Nat) * 17
      = maxUint := by decide
  refine ⟨by decide, hwm, hwt, hwr, ?_, ?_, ?_, ?_, ?_, ?_, ?_, ?_, ?_, ?_⟩
  · rw [hm]; decide
  · rw [ht]; decide
  · unfold powLimitAssertion
    rw [hm, hwm]; decide
  · unfold powLimitAssertion
    rw [ht, hwt]; decide
  · unfold powLimitAssertion
    rw [hr, hwr]; decide
  · rw [hm]; decide
  · rw [ht]; decide
  · rw [hr]; decide
  · rw [hr]; exact hprod
  · intro limit hlimit
    rw [hr] at hlimit
    have hq : maxUint / limit < 17 := by
      apply Nat.div_lt_of_lt_mul
      omega
    refine ⟨hq, ?_⟩
    unfold powLimitAssertion
    simp only [hwr]
    rw [decide_eq_false]
    omega

/-- C27 at a concrete input: the RegTest limit plus one fails the condition. -/
theorem pow_limit_assertion_witness :
    maxUint / ((CRegTestParams sampleConstants).consensus.powLimit + 1) < 17 ∧
    powLimitAssertion { (CRegTestParams sampleConstants).consensus with
      powLimit := (CRegTestParams sampleConstants).consensus.powLimit + 1 } = false :=
  (pow_limit_assertion sampleConstants).2.2.2.2.2.2.2.2.2.2.2.2.2
    ((CRegTestParams sampleConstants).consensus.powLimit + 1) (Nat.lt_succ_self _)

end Zcents
